import Mathlib

/-!
Verification development for the QTAIM surface construction in
`chemtools/topology/qtaim.py`.

The Python code is shallowly embedded over exact rational arithmetic:

* Real numbers are represented by the fraction type `Q` (an integer
  numerator/denominator pair, not kept normalised so that every operation is
  a plain integer computation; every constructor and operation used here
  keeps the denominator positive).  `Q.val : Q → ℚ` interprets a fraction,
  and the lemmas `Q.blt_iff`, `Q.val_add`, … prove that the operations and
  comparisons used by the embedding agree with rational arithmetic.
* 3-D points (numpy length-3 vectors) become the structure `V3`.
* Every comparison of a Euclidean norm against a bound,
  `np.linalg.norm v < c`, is embedded as the exact equivalent rational test
  `0 < c ∧ normSq v < c * c` (`normLt`); this is the real-number comparison,
  decided exactly.
* Where the code *stores* a Euclidean norm (`r_func`, the refinement
  bounds), the embedding uses `ratSqrt (normSq v)`: the exact square root
  whenever the squared norm is the square of a rational (all concrete
  configurations used in this development are chosen so that this is the
  case), and `0` otherwise.
* `scipy.integrate.solve_ivp` is an external collaborator; the code reads
  only the last two trajectory positions `sol.y[:,-2]`, `sol.y[:,-1]`, so
  the solver is modelled as a function returning that pair.  Likewise
  `scipy.optimize.root_scalar` is modelled as a function returning the root
  and its `converged` flag, and `grid.lebedev.AngularGrid` by taking the
  angular point set directly as input.
* Python exceptions (`ValueError`, `RuntimeError`, `TypeError`, failing
  `assert`s, `IndexError` from `np.where(...)[0][0]` on an empty match)
  become an `Except QtaimErr` result.  Unbounded `while` loops take fuel;
  exhausting it yields `.outOfFuel`, which models non-termination.
-/

/-! ## Exact fraction arithmetic -/

/-- An exact fraction of integers.  Denominators are kept positive by every
constructor and operation used in this development; fractions are *not*
normalised, so that all arithmetic is plain (kernel-computable) integer
arithmetic.  Comparisons are by cross-multiplication. -/
structure Q where
  num : ℤ
  den : ℤ
deriving DecidableEq, Repr

namespace Q

instance (n : ℕ) : OfNat Q n := ⟨⟨(n : ℤ), 1⟩⟩

def add (a b : Q) : Q := ⟨a.num * b.den + b.num * a.den, a.den * b.den⟩

def neg (a : Q) : Q := ⟨-a.num, a.den⟩

def sub (a b : Q) : Q := ⟨a.num * b.den - b.num * a.den, a.den * b.den⟩

def mul (a b : Q) : Q := ⟨a.num * b.num, a.den * b.den⟩

/-- Division; division by zero yields `0` (only reached in `meanDiff` on
degenerate grids, see there).  The result's denominator is kept positive. -/
def div (a b : Q) : Q :=
  if b.num = 0 then ⟨0, 1⟩
  else
    let n := a.num * b.den
    let d := a.den * b.num
    if d < 0 then ⟨-n, -d⟩ else ⟨n, d⟩

instance : Add Q := ⟨add⟩

instance : Neg Q := ⟨neg⟩

instance : Sub Q := ⟨sub⟩

instance : Mul Q := ⟨mul⟩

instance : Div Q := ⟨div⟩

instance : Inhabited Q := ⟨⟨0, 1⟩⟩

/-- The strict comparison `a < b`, by cross-multiplication (exact for
positive denominators, see `Q.blt_iff`). -/
def blt (a b : Q) : Bool := decide (a.num * b.den < b.num * a.den)

/-- Absolute value (for positive denominators). -/
def abs (a : Q) : Q := ⟨(a.num.natAbs : ℤ), a.den⟩

/-- Python's `max a b`. -/
def qmax (a b : Q) : Q := if blt a b then b else a

/-- Ceiling `⌈a⌉` (for positive denominators). -/
def ceil (a : Q) : ℤ := -(Int.fdiv (-a.num) a.den)

def ofNat (n : ℕ) : Q := ⟨(n : ℤ), 1⟩

/-- Interpretation of a fraction as a rational number. -/
def val (a : Q) : ℚ := (a.num : ℚ) / (a.den : ℚ)

/-- Positivity of the denominator: the invariant maintained by all the
operations above. -/
def isWF (a : Q) : Prop := 0 < a.den

theorem isWF_add {a b : Q} (ha : a.isWF) (hb : b.isWF) : (a + b).isWF :=
  mul_pos ha hb

theorem isWF_sub {a b : Q} (ha : a.isWF) (hb : b.isWF) : (a - b).isWF :=
  mul_pos ha hb

theorem isWF_mul {a b : Q} (ha : a.isWF) (hb : b.isWF) : (a * b).isWF :=
  mul_pos ha hb

theorem isWF_neg {a : Q} (ha : a.isWF) : (-a).isWF := ha

theorem isWF_div {a b : Q} (ha : a.isWF) (_hb : b.isWF) : (a / b).isWF := by
  show 0 < (div a b).den
  unfold div
  split
  · exact one_pos
  · next hb0 =>
    dsimp only
    split
    · next hlt => simpa using hlt
    · next hge =>
      rcases (not_lt.mp hge).lt_or_eq with h | h
      · simpa using h
      · exfalso
        have hden : a.den ≠ 0 := by unfold isWF at ha; omega
        rcases mul_eq_zero.mp h.symm with h' | h'
        · exact hden h'
        · exact hb0 h'

theorem val_add {a b : Q} (ha : a.isWF) (hb : b.isWF) :
    (a + b).val = a.val + b.val := by
  show (add a b).val = a.val + b.val
  unfold add val isWF at *
  have ha' : (a.den : ℚ) ≠ 0 := by exact_mod_cast ha.ne'
  have hb' : (b.den : ℚ) ≠ 0 := by exact_mod_cast hb.ne'
  rw [div_add_div _ _ ha' hb']
  push_cast
  ring_nf

theorem val_sub {a b : Q} (ha : a.isWF) (hb : b.isWF) :
    (a - b).val = a.val - b.val := by
  show (sub a b).val = a.val - b.val
  unfold sub val isWF at *
  have ha' : (a.den : ℚ) ≠ 0 := by exact_mod_cast ha.ne'
  have hb' : (b.den : ℚ) ≠ 0 := by exact_mod_cast hb.ne'
  rw [div_sub_div _ _ ha' hb']
  push_cast
  ring_nf

theorem val_mul (a b : Q) : (a * b).val = a.val * b.val := by
  show (mul a b).val = a.val * b.val
  unfold mul val
  rw [div_mul_div_comm]
  push_cast
  ring_nf

theorem val_neg (a : Q) : (-a).val = -a.val := by
  show (neg a).val = -a.val
  unfold neg val
  push_cast
  ring_nf

theorem val_div {a b : Q} (ha : a.isWF) (hb : b.isWF) :
    (a / b).val = a.val / b.val := by
  show (div a b).val = a.val / b.val
  unfold div val isWF at *
  have ha' : (a.den : ℚ) ≠ 0 := by exact_mod_cast ha.ne'
  have hb' : (b.den : ℚ) ≠ 0 := by exact_mod_cast hb.ne'
  split
  · next h => simp [h]
  · next h =>
    have hbn : (b.num : ℚ) ≠ 0 := by exact_mod_cast h
    dsimp only
    split
    · push_cast
      field_simp
    · push_cast
      field_simp

/-- The comparison `blt` agrees with the rational order on well-formed
fractions. -/
theorem blt_iff {a b : Q} (ha : a.isWF) (hb : b.isWF) :
    blt a b = true ↔ a.val < b.val := by
  unfold blt val isWF at *
  rw [decide_eq_true_iff,
    div_lt_div_iff₀ (by exact_mod_cast ha) (by exact_mod_cast hb)]
  constructor
  · intro h; exact_mod_cast h
  · intro h; exact_mod_cast h

end Q

/-- Kernel-computable integer square root (via the classical
`isqrt n = adjust (2 * isqrt (n / 4))` recursion, with the first argument as
fuel; `isqrt` calls it with fuel `n`, far above the recursion depth
`log₄ n`). -/
def isqrtF : ℕ → ℕ → ℕ
  | 0, _ => 0
  | fuel + 1, n =>
    if n < 2 then n
    else
      let r := 2 * isqrtF fuel (n / 4)
      if (r + 1) * (r + 1) ≤ n then r + 1 else r

def isqrt (n : ℕ) : ℕ := isqrtF n n

/-- Exact square root of a fraction: for `q = a/b` (with `b > 0`),
`√(a/b)` is rational iff `a·b` is a perfect integer square, in which case it
equals `√(a·b)/b`.  Returns that value, and `0` when `q` is negative or not
the square of a rational.  Used to embed `np.linalg.norm` where the Python
code stores the norm as a value; all concrete inputs in this development
make the relevant squared norms perfect squares, so the stored values are
exact there. -/
def ratSqrt (q : Q) : Q :=
  if q.num < 0 then 0
  else
    let ab := (q.num * q.den).toNat
    let s := isqrt ab
    if s * s = ab then ⟨(s : ℤ), q.den⟩ else 0

/-! ## Points and norms -/

/-- A point of `ℝ³` with exact rational coordinates (numpy length-3
vector). -/
structure V3 where
  x : Q
  y : Q
  z : Q
deriving DecidableEq, Repr

namespace V3

def add (a b : V3) : V3 := ⟨a.x + b.x, a.y + b.y, a.z + b.z⟩

def sub (a b : V3) : V3 := ⟨a.x - b.x, a.y - b.y, a.z - b.z⟩

def smul (c : Q) (a : V3) : V3 := ⟨c * a.x, c * a.y, c * a.z⟩

instance : Add V3 := ⟨add⟩

instance : Sub V3 := ⟨sub⟩

instance : HSMul Q V3 V3 := ⟨smul⟩

instance : Inhabited V3 := ⟨⟨0, 0, 0⟩⟩

/-- Squared Euclidean norm; exact. -/
def normSq (a : V3) : Q := a.x * a.x + a.y * a.y + a.z * a.z

/-- Exact embedding of the real comparison `np.linalg.norm v < c`: for
`c > 0` it is equivalent to `normSq v < c²`, and for `c ≤ 0` it is false (a
Euclidean norm is nonnegative). -/
def normLt (v : V3) (c : Q) : Bool := Q.blt 0 c && Q.blt (normSq v) (c * c)

/-- Exact embedding of `np.linalg.norm (a - b) < c`. -/
def distLt (a b : V3) (c : Q) : Bool := normLt (a - b) c

end V3

open V3

/-- Euclidean norm of a `V3`, via `ratSqrt` (see its docstring). -/
def norm3 (v : V3) : Q := ratSqrt (normSq v)


/-! ## Faithfulness of the square-root machinery -/

/-- `isqrtF` with enough fuel computes the integer square root: its result
squares to at most `n`, and the next integer squares past `n`. -/
theorem isqrtF_correct : ∀ fuel n, n ≤ fuel →
    isqrtF fuel n * isqrtF fuel n ≤ n ∧
      n < (isqrtF fuel n + 1) * (isqrtF fuel n + 1) := by
  intro fuel
  induction fuel with
  | zero =>
    intro n hn
    interval_cases n
    simp [isqrtF]
  | succ fuel ih =>
    intro n hn
    rw [isqrtF]
    split
    · next h2 => interval_cases n <;> simp
    · next h2 =>
      push_neg at h2
      have hdiv : n / 4 ≤ fuel := by omega
      obtain ⟨ih1, ih2⟩ := ih (n / 4) hdiv
      have h4a : 4 * (n / 4) ≤ n := by omega
      have h4b : n ≤ 4 * (n / 4) + 3 := by omega
      dsimp only
      split
      · next hle =>
        refine ⟨hle, ?_⟩
        nlinarith [ih2]
      · next hgt =>
        push_neg at hgt
        exact ⟨by nlinarith [ih1], hgt⟩

/-- `isqrt` computes the integer square root. -/
theorem isqrt_correct (n : ℕ) :
    isqrt n * isqrt n ≤ n ∧ n < (isqrt n + 1) * (isqrt n + 1) :=
  isqrtF_correct n n le_rfl

/-- On a perfect square, `isqrt` recovers the root exactly. -/
theorem isqrt_eq_of_sq (k : ℕ) : isqrt (k * k) = k := by
  obtain ⟨h1, h2⟩ := isqrt_correct (k * k)
  rcases lt_trichotomy (isqrt (k * k)) k with h | h | h
  · exact absurd h2 (not_lt.mpr (Nat.mul_le_mul h h))
  · exact h
  · exact absurd h1 (not_le.mpr (mul_lt_mul'' h h (Nat.zero_le _) (Nat.zero_le _)))

/-- Soundness of `ratSqrt`: whenever it returns a nonzero fraction, that
fraction is a nonnegative square root of its argument. -/
theorem ratSqrt_sound (q : Q) (hq : q.isWF) (h : ratSqrt q ≠ 0) :
    (ratSqrt q).val * (ratSqrt q).val = q.val ∧ 0 ≤ (ratSqrt q).val := by
  unfold ratSqrt at h ⊢
  by_cases hneg : q.num < 0
  · rw [if_pos hneg] at h
    exact absurd rfl h
  · have hnn : 0 ≤ q.num := not_lt.mp hneg
    rw [if_neg hneg] at h ⊢
    dsimp only at h ⊢
    by_cases hsq : isqrt (q.num * q.den).toNat * isqrt (q.num * q.den).toNat
        = (q.num * q.den).toNat
    · rw [if_pos hsq] at h ⊢
      have hden : (0 : ℚ) < (q.den : ℚ) := by exact_mod_cast hq
      have hcast : ((((q.num * q.den).toNat : ℕ) : ℤ) : ℚ) = (q.num : ℚ) * (q.den : ℚ) := by
        rw [Int.toNat_of_nonneg (mul_nonneg hnn (le_of_lt hq))]
        push_cast
        ring
      constructor
      · show ((isqrt (q.num * q.den).toNat : ℤ) : ℚ) / (q.den : ℚ) *
            (((isqrt (q.num * q.den).toNat : ℤ) : ℚ) / (q.den : ℚ)) = q.val
        rw [div_mul_div_comm]
        have hs : (((isqrt (q.num * q.den).toNat : ℕ) : ℚ)) *
            ((isqrt (q.num * q.den).toNat : ℕ) : ℚ) =
            (((q.num * q.den).toNat : ℕ) : ℚ) := by
          exact_mod_cast congrArg (fun m => ((m : ℕ) : ℚ)) hsq
        unfold Q.val
        push_cast at hs ⊢
        rw [hs]
        push_cast at hcast
        rw [hcast]
        field_simp
        ring
      · show 0 ≤ ((isqrt (q.num * q.den).toNat : ℤ) : ℚ) / (q.den : ℚ)
        positivity
    · rw [if_neg hsq] at h
      exact absurd rfl h

/-- Exactness of `ratSqrt` on rational squares: if `q` is the square of a
nonnegative well-formed fraction `r`, then `ratSqrt q` has exactly the value
of `r`. -/
theorem ratSqrt_exact (q r : Q) (hq : q.isWF)
    (hrnn : 0 ≤ r.val) (hsq : r.val * r.val = q.val) :
    (ratSqrt q).val = r.val := by
  have hden : (0 : ℚ) < (q.den : ℚ) := by exact_mod_cast hq
  have hqv : 0 ≤ q.val := hsq ▸ mul_nonneg hrnn hrnn
  have hnum : 0 ≤ q.num := by
    by_contra hneg
    push_neg at hneg
    have : q.val < 0 :=
      div_neg_of_neg_of_pos (by exact_mod_cast hneg) hden
    exact absurd hqv (not_le.mpr this)
  -- the rational x = r.val * q.den squares to the integer q.num * q.den
  set x : ℚ := r.val * (q.den : ℚ) with hx
  have hxsq : x * x = ((q.num * q.den : ℤ) : ℚ) := by
    have : q.val * ((q.den : ℚ) * (q.den : ℚ)) = (q.num : ℚ) * (q.den : ℚ) := by
      unfold Q.val
      field_simp
      ring
    rw [hx]
    push_cast
    calc r.val * (q.den : ℚ) * (r.val * (q.den : ℚ))
        = (r.val * r.val) * ((q.den : ℚ) * (q.den : ℚ)) := by ring
      _ = q.val * ((q.den : ℚ) * (q.den : ℚ)) := by rw [hsq]
      _ = (q.num : ℚ) * (q.den : ℚ) := this
  -- hence x is an integer
  have hxden : x.den = 1 := by
    have h1 : (x * x).den = 1 := by rw [hxsq]; exact Rat.den_intCast _
    have h2 : (x * x).den = x.den * x.den := Rat.mul_self_den x
    have := h1 ▸ h2
    exact Nat.eq_one_of_mul_eq_one_right this.symm
  have hxint : (x.num : ℚ) = x := by
    exact_mod_cast Rat.den_eq_one_iff x |>.mp hxden
  have hxnn : 0 ≤ x := mul_nonneg hrnn (le_of_lt hden)
  have hknn : 0 ≤ x.num := Rat.num_nonneg.mpr hxnn
  -- the natural k = x.num.toNat squares to (q.num * q.den).toNat
  set k : ℕ := x.num.toNat with hk
  have hkx : ((k : ℕ) : ℚ) = x := by
    rw [hk]
    rw [← hxint]
    exact_mod_cast congrArg (fun z => ((z : ℤ) : ℚ)) (Int.toNat_of_nonneg hknn)
  have hkk : k * k = (q.num * q.den).toNat := by
    have hcast : ((((q.num * q.den).toNat : ℕ) : ℚ)) = ((q.num * q.den : ℤ) : ℚ) := by
      exact_mod_cast congrArg (fun z => ((z : ℤ) : ℚ))
        (Int.toNat_of_nonneg (mul_nonneg hnum (le_of_lt hq)))
    have : ((k * k : ℕ) : ℚ) = (((q.num * q.den).toNat : ℕ) : ℚ) := by
      push_cast
      rw [hkx, hcast]
      exact hxsq
    exact_mod_cast this
  -- so the perfect-square guard in ratSqrt passes with root k
  unfold ratSqrt
  rw [if_neg (not_lt.mpr hnum)]
  dsimp only
  have hguard : isqrt (q.num * q.den).toNat = k := by
    rw [← hkk, isqrt_eq_of_sq]
  rw [hguard, if_pos hkk]
  show ((k : ℤ) : ℚ) / (q.den : ℚ) = r.val
  push_cast
  rw [hkx, hx, mul_div_assoc, div_self (ne_of_gt hden), mul_one]

/-- `norm3` stores exactly the Euclidean norm whenever the squared norm is
the square of a (nonnegative, well-formed) rational. -/
theorem norm3_exact (v : V3) (r : Q) (hv : (normSq v).isWF)
    (hrnn : 0 ≤ r.val) (h : r.val * r.val = (normSq v).val) :
    (norm3 v).val = r.val :=
  ratSqrt_exact (normSq v) r hv hrnn h

/-- The value of the squared norm is the sum of the squared coordinate
values. -/
theorem normSq_val (v : V3) (hx : v.x.isWF) (hy : v.y.isWF) (hz : v.z.isWF) :
    (normSq v).val = v.x.val * v.x.val + v.y.val * v.y.val + v.z.val * v.z.val := by
  show (v.x * v.x + v.y * v.y + v.z * v.z).val = _
  rw [Q.val_add (Q.isWF_add (Q.isWF_mul hx hx) (Q.isWF_mul hy hy)) (Q.isWF_mul hz hz),
    Q.val_add (Q.isWF_mul hx hx) (Q.isWF_mul hy hy), Q.val_mul, Q.val_mul, Q.val_mul]

/-- The boolean test `normLt v c` is exactly the real-number comparison
`‖v‖ < c`, i.e. `√(x² + y² + z²) < c` over `ℝ`: the embedding of
`np.linalg.norm v < c` is faithful. -/
theorem normLt_iff_real (v : V3) (c : Q)
    (hx : v.x.isWF) (hy : v.y.isWF) (hz : v.z.isWF) (hc : c.isWF) :
    normLt v c = true ↔
      Real.sqrt (((v.x.val : ℝ)) ^ 2 + ((v.y.val : ℝ)) ^ 2 + ((v.z.val : ℝ)) ^ 2)
        < ((c.val : ℝ)) := by
  have hWFsq : (normSq v).isWF :=
    Q.isWF_add (Q.isWF_add (Q.isWF_mul hx hx) (Q.isWF_mul hy hy)) (Q.isWF_mul hz hz)
  have h0 : (0 : Q).isWF := one_pos
  have hval0 : (0 : Q).val = 0 := by
    show ((((0 : ℕ) : ℤ)) : ℚ) / (((1 : ℤ)) : ℚ) = 0
    norm_num
  have hS : (((normSq v).val : ℝ)) =
      ((v.x.val : ℝ)) ^ 2 + ((v.y.val : ℝ)) ^ 2 + ((v.z.val : ℝ)) ^ 2 := by
    rw [normSq_val v hx hy hz]
    push_cast
    ring
  show (Q.blt 0 c && Q.blt (normSq v) (c * c)) = true ↔ _
  rw [Bool.and_eq_true, Q.blt_iff h0 hc, Q.blt_iff hWFsq (Q.isWF_mul hc hc),
    hval0, Q.val_mul]
  constructor
  · intro ⟨h1, h2⟩
    have hcR : (0 : ℝ) < (c.val : ℝ) := by exact_mod_cast h1
    rw [Real.sqrt_lt' hcR, ← hS, sq]
    exact_mod_cast h2
  · intro h
    have hcR : (0 : ℝ) < (c.val : ℝ) :=
      lt_of_le_of_lt (Real.sqrt_nonneg _) h
    rw [Real.sqrt_lt' hcR, ← hS, sq] at h
    exact ⟨by exact_mod_cast hcR, by exact_mod_cast h⟩

/-- Python-style list indexing: nonnegative indices from the front, negative
indices from the back (`l[-1]` is the last element).  All uses in this
development are in range; out-of-range reads default to `0`. -/
def pyGetQ (l : List Q) (i : ℤ) : Q :=
  if 0 ≤ i then l.getD i.toNat 0 else l.getD (l.length - (-i).toNat) 0

/-- Python-style list indexing over `V3` lists (`l[-1]` is the last
element). -/
def pyGetV (l : List V3) (i : ℤ) : V3 :=
  if 0 ≤ i then l.getD i.toNat default else l.getD (l.length - (-i).toNat) default

/-- `np.arange(start, stop, step)` for a positive step: the points
`start + k·step` for `0 ≤ k < ⌈(stop - start)/step⌉`.  (The code never uses
a nonpositive step; that case returns `[]`.  numpy computes in floating
point; the embedding is exact.) -/
def arangeQ (start stop step : Q) : List Q :=
  if Q.blt 0 step then
    (List.range (((stop - start) / step).ceil.toNat)).map
      (fun k => start + Q.ofNat k * step)
  else []

/-- `np.mean(np.diff(l))`: the mean of consecutive differences.  (For lists
with fewer than two points numpy produces `nan`; the embedding returns `0`
there — the `Q.div`-by-zero convention — a case never reached in this
development.) -/
def meanDiff (l : List Q) : Q :=
  (((l.zip l.tail).map (fun p => p.2 - p.1)).foldl (· + ·) 0) /
    (Q.ofNat l.length - 1)

/-- `np.argsort(np.abs(l - t))[0]`: an index of a value of `l` closest to
`t`.  Embedded as the *first* index attaining the minimum; the concrete
configurations below avoid ties, where numpy's unstable sort would make the
choice unspecified. -/
def argminAbsDev (l : List Q) (t : Q) : ℕ :=
  let rec go : List Q → ℕ → ℕ → Q → ℕ
    | [], _, bIdx, _ => bIdx
    | v :: vs, i, bIdx, bVal =>
      if Q.blt (Q.abs (v - t)) bVal then go vs (i + 1) i (Q.abs (v - t))
      else go vs (i + 1) bIdx bVal
  match l with
  | [] => 0
  | v :: vs => go vs 1 0 (Q.abs (v - t))

/-- Errors of the embedded computation; each constructor corresponds to a
Python exception site in `qtaim.py` (see the individual definitions). -/
inductive QtaimErr where
  /-- `TypeError` at line 455: `refine` is neither a bool nor an int. -/
  | typeErrorRefine : QtaimErr
  /-- `TypeError` at line 129: `self.r_func[i_basin, i_sph]` tuple-indexes
  `r_func`, which is a Python `list` of per-basin 1-D arrays for every
  surface this module constructs. -/
  | typeErrorRFuncIndex : QtaimErr
  /-- `ValueError` at line 457: `dens_cutoff > iso_val`. -/
  | configDensCutoff : QtaimErr
  /-- `ValueError` at line 459: beta-sphere list length ≠ number of centers. -/
  | configBetaLength : QtaimErr
  /-- `RuntimeError` at line 391: optimized maxima contain duplicates. -/
  | duplicateMaxima : QtaimErr
  /-- `RuntimeError` at line 270: gradient path exhausted `max_tries`. -/
  | convergenceError : QtaimErr
  /-- Fuel exhausted: models a `while` loop of the Python code that never
  terminates. -/
  | outOfFuel : QtaimErr
  /-- `IndexError` at line 355: `np.where(dist_maxima < 1e-1)[0][0]` on an
  empty match (watershed triggered by a beta sphere alone). -/
  | indexError : QtaimErr
  /-- `ValueError` at line 287: the bracket radii/densities fail the
  isosurface bracketing condition (payload: `l_bnd`, `u_bnd`, densities). -/
  | bracket (lBnd uBnd densL densU : Q) : QtaimErr
  /-- Failing `assert sol.converged` at line 295 (payload: the bracket). -/
  | rootNoConverge (lBnd uBnd : Q) : QtaimErr
  /-- A `None` value reached an operation that would crash in Python. -/
  | noneValue : QtaimErr
deriving DecidableEq, Repr

/-- `Except.isOk` as a Bool. -/
def isOkE {α β : Type} : Except α β → Bool
  | .ok _ => true
  | .error _ => false

deriving instance DecidableEq for Except

/-! ## Gradient-flow integrator (`gradient_path`, qtaim.py lines 235-271) -/

/-- The external ODE collaborator (`scipy.integrate.solve_ivp` applied to the
gradient field `grad_func`).  Arguments: initial point, time span `t_span`,
method name, `max_step`, `first_step`.  The Python code reads only the last
two trajectory positions `sol.y[:,-2]` and `sol.y[:,-1]`, returned here as a
pair (the `assert sol["success"]` is modelled by the collaborator being
total). -/
def OdeSolver : Type := V3 → Q × Q → String → Q → Q → V3 × V3

/-- `np.all(np.abs(p - q) < 0.01)`: componentwise convergence test of
`gradient_path` (lines 253-254). -/
def gpConverged (p q : V3) : Bool :=
  Q.blt (Q.abs (p.x - q.x)) ((1 : Q) / 100) &&
    Q.blt (Q.abs (p.y - q.y)) ((1 : Q) / 100) &&
    Q.blt (Q.abs (p.z - q.z)) ((1 : Q) / 100)

/-- The `while` loop of `gradient_path` (lines 242-271), with fuel.  State:
current `y0`, current `t_span`, attempt counter `numb_times`.  The branch
structure mirrors the source exactly: if the last two positions agree within
`0.01` componentwise, return the last; otherwise, *if a beta sphere radius
is configured* (`beta_sphere_maxima` different from `-np.inf`, modelled by
`betaMax = some b`), return the last position if it is inside the sphere and
otherwise loop again **with unchanged state** (the source's `elif` at line
256 has no `else` for this sub-case, so the counter is not incremented and
the span is not extended); only when no beta sphere is configured does the
code extend `t_span` by `t_inc`, restart from the last position and
increment the counter (lines 262-268).  When `numb_times` reaches
`max_tries` the `while` condition fails and the `RuntimeError` at line 270
fires. -/
def gradient_path_loop (solver : OdeSolver) (method : String)
    (maxStep tInc : Q) (maxTries : ℕ) (firstStep : Q)
    (betaMax : Option Q) (maxima : V3) :
    ℕ → V3 → Q × Q → ℕ → Except QtaimErr V3
  | 0, _, _, _ => .error .outOfFuel
  | fuel + 1, y0, tspan, numbTimes =>
    if numbTimes < maxTries then
      let pq := solver y0 tspan method maxStep firstStep
      if gpConverged pq.1 pq.2 then .ok pq.2
      else
        match betaMax with
        | some b =>
          if normLt (pq.2 - maxima) b then .ok pq.2
          else gradient_path_loop solver method maxStep tInc maxTries firstStep
            (some b) maxima fuel y0 tspan numbTimes
        | none =>
          gradient_path_loop solver method maxStep tInc maxTries firstStep
            none maxima fuel pq.2 (tspan.2, tspan.2 + tInc) (numbTimes + 1)
    else .error .convergenceError

/-- `gradient_path(pt, ...)`: entry point of the loop above with
`numb_times = 0`.  Python defaults: `t_span=(0,1000)`, `method="LSODA"`,
`max_step=100`, `t_inc=200`, `max_tries=10`, `first_step=1e-3`,
`beta_sphere_maxima=-np.inf` (`none`), `maxima=None` (never dereferenced
when no beta sphere is given). -/
def gradient_path (solver : OdeSolver) (pt : V3) (tspan : Q × Q)
    (method : String) (maxStep tInc : Q) (maxTries : ℕ) (firstStep : Q)
    (betaMax : Option Q) (maxima : V3) (fuel : ℕ) : Except QtaimErr V3 :=
  gradient_path_loop solver method maxStep tInc maxTries firstStep betaMax maxima
    fuel pt tspan 0

/-! ## Isosurface root-finder (`solve_for_isosurface_pt`, lines 274-298) -/

/-- The external bracketed root-finder collaborator
(`scipy.optimize.root_scalar` with `method="toms748"`).  Arguments: the
function, the bracket `(l_bnd, u_bnd)`, and `xtol`; returns the root and the
`converged` flag. -/
def RootScalar : Type := (Q → Q) → Q → Q → Q → Q × Bool

/-- The bracket computed at lines 282-283:
`l_bnd = rad_pts[index_iso - 1] if index_iso >= 0 else rad_pts[index_iso] / 2.0`
and
`u_bnd = rad_pts[index_iso + 1] if index_iso + 1 < len(rad_pts) else rad_pts[index_iso] * 2.0`.
`index_iso` is a numpy index and hence nonnegative, so the first conditional
always takes its first branch, and for `index_iso = 0` the Python expression
`rad_pts[-1]` denotes the *last* grid radius (`pyGetQ`). -/
def isoBracket (radPts : List Q) (indexIso : ℕ) : Q × Q :=
  let lBnd := if 0 ≤ (indexIso : ℤ) then pyGetQ radPts ((indexIso : ℤ) - 1)
    else pyGetQ radPts (indexIso : ℤ) / 2
  let uBnd := if indexIso + 1 < radPts.length then radPts.getD (indexIso + 1) 0
    else radPts.getD indexIso 0 * 2
  (lBnd, uBnd)

/-- `solve_for_isosurface_pt(index_iso, rad_pts, maxima, cart_sphere_pt,
density_func, iso_val, iso_err)` (lines 274-298).  Validates the bracket
(`ValueError` at line 287 when `iso_val < dens_u_bnd or dens_l_bnd < iso_val`),
then delegates to the root-finder collaborator; a non-`converged` result is
the failing `assert` at line 295. -/
def solve_for_isosurface_pt (densityFunc : V3 → Q) (rootScalar : RootScalar)
    (indexIso : ℕ) (radPts : List Q) (maxima cartSpherePt : V3)
    (isoVal isoErr : Q) : Except QtaimErr V3 :=
  let lBnd := (isoBracket radPts indexIso).1
  let uBnd := (isoBracket radPts indexIso).2
  let densLBnd := densityFunc (maxima + lBnd • cartSpherePt)
  let densUBnd := densityFunc (maxima + uBnd • cartSpherePt)
  if Q.blt isoVal densUBnd || Q.blt densLBnd isoVal then
    .error (.bracket lBnd uBnd densLBnd densUBnd)
  else
    let rootFunc := fun t => densityFunc (maxima + t • cartSpherePt) - isoVal
    let sol := rootScalar rootFunc lBnd uBnd isoErr
    if sol.2 then .ok (maxima + sol.1 • cartSpherePt)
    else .error (.rootNoConverge lBnd uBnd)

/-! ## Ray tracer / boundary solver (`solve_for_basin_bnd_pt`, lines 301-378) -/

/-- Outcome of one pass of the `for i_ray, pt in enumerate(ray)` loop
(lines 334-372): either a `break` with a watershed point found (line 353),
a `break` into grid refinement (lines 357-364), a `break`/fall-through with
`is_ray_to_inf = True` (lines 366-372), or a fall-through with no flag set
(only possible for an empty ray). -/
inductive RayOutcome where
  | watershed (bndPt : V3) (basinId : ℕ) : RayOutcome
  | refineGrid (newRadPts : List Q) (newSs : Q) : RayOutcome
  | toInf : RayOutcome
  | fellThrough : RayOutcome
deriving DecidableEq, Repr

/-- The watershed trigger at line 347:
`np.any(dist_maxima < 1e-1) or np.any(dist_maxima < beta_sphere_others)`.
`beta_sphere_others` is the scalar `-np.inf` when no beta spheres are given
(`none`; every comparison is then false) and otherwise the list of the
other maximas' beta radii, compared elementwise. -/
def watershedTrigger (yVal : V3) (otherMaximas : List V3)
    (betaSphereOthers : Option (List Q)) : Bool :=
  otherMaximas.any (fun m => normLt (yVal - m) ((1 : Q) / 10)) ||
    (match betaSphereOthers with
     | none => false
     | some bs => ((otherMaximas.zip bs).any (fun p => normLt (yVal - p.1) p.2)))

/-- The `for i_ray, pt in enumerate(ray)` loop of `solve_for_basin_bnd_pt`
(lines 334-372), processing indices from `i` upward.

* `ray_density[i_ray] > dens_cutoff` (line 335): invoke `gradient_path` from
  the ray point with `t_span=(0, max(1000*rad_pts[i_ray], 75))`,
  `max_step=50` and the basin's own beta sphere (lines 338-342).
* Watershed trigger (line 347): compute
  `dist = np.linalg.norm(ray[i_ray] - ray[i_ray - 1])` (line 350; Python
  indexing, so for `i_ray = 0` the "previous" sample is the *last* ray
  point); if `dist < bnd_err`, the boundary point is the midpoint of those
  two samples and the neighbour id is
  `np.where(dist_maxima < 1e-1)[0][0] + 1` (line 355) — an `IndexError`
  when no other maximum is within `1e-1` (beta-sphere-only trigger);
  otherwise refine: `l_bnd` is the distance of the previous sample from the
  maximum (or `1e-3` when `i_ray = 0`), `u_bnd` that of the current sample,
  `ss_ray /= 10`, and the new grid is
  `np.arange(l_bnd, u_bnd + ss_ray, ss_ray)` (lines 359-362).
* Density at or below the cutoff (line 366): `is_ray_to_inf` with a `break`.
* At the final index with no `break`, line 372 sets `is_ray_to_inf`; the
  enclosing `while` then stops (line 374). -/
def rayLoopGo (solver : OdeSolver) (densCutoff bndErr : Q)
    (maxima : V3) (otherMaximas : List V3) (betaSphereMaxima : Option Q)
    (betaSphereOthers : Option (List Q)) (gpFuel : ℕ)
    (radPts : List Q) (ray : List V3) (rayDensity : List Q) (ssRay : Q) :
    List ℕ → Except QtaimErr RayOutcome
  | [] => if ray.length = 0 then .ok .fellThrough else .ok .toInf
  | i :: rest =>
    let pt := ray.getD i default
    if Q.blt densCutoff (rayDensity.getD i 0) then
      match gradient_path solver pt
          (0, Q.qmax (1000 * radPts.getD i 0) 75)
          "LSODA" 50 200 10 ((1 : Q) / 1000) betaSphereMaxima maxima gpFuel with
      | .error e => .error e
      | .ok yVal =>
        if watershedTrigger yVal otherMaximas betaSphereOthers then
          let prev := pyGetV ray ((i : ℤ) - 1)
          if distLt pt prev bndErr then
            match otherMaximas.findIdx? (fun m => normLt (yVal - m) ((1 : Q) / 10)) with
            | some j => .ok (.watershed (((1 : Q) / 2) • (pt + prev)) (j + 1))
            | none => .error .indexError
          else
            let lBnd := if i ≠ 0 then norm3 (prev - maxima) else (1 : Q) / 1000
            let uBnd := norm3 (pt - maxima)
            let ssNew := ssRay / 10
            .ok (.refineGrid (arangeQ lBnd (uBnd + ssNew) ssNew) ssNew)
        else
          rayLoopGo solver densCutoff bndErr maxima otherMaximas betaSphereMaxima
            betaSphereOthers gpFuel radPts ray rayDensity ssRay rest
    else .ok .toInf

/-- The full `for` loop: `rayLoopGo` over the index list
`range(len(ray))`. -/
def rayLoop (solver : OdeSolver) (densCutoff bndErr : Q)
    (maxima : V3) (otherMaximas : List V3) (betaSphereMaxima : Option Q)
    (betaSphereOthers : Option (List Q)) (gpFuel : ℕ)
    (radPts : List Q) (ray : List V3) (rayDensity : List Q) (ssRay : Q) :
    Except QtaimErr RayOutcome :=
  rayLoopGo solver densCutoff bndErr maxima otherMaximas betaSphereMaxima
    betaSphereOthers gpFuel radPts ray rayDensity ssRay (List.range ray.length)

/-- The 5-tuple returned by `solve_for_basin_bnd_pt` (line 378):
`(bnd_pt, is_ray_to_inf, index_iso, found_watershed_on_ray, basin_id)`. -/
structure BndResult where
  bndPt : Option V3
  isRayToInf : Bool
  indexIso : Option ℕ
  foundWatershed : Bool
  basinId : Option ℕ
deriving DecidableEq, Repr

/-- The `while not found_watershed_on_ray` loop of `solve_for_basin_bnd_pt`
(lines 327-377), with fuel.  Each pass builds the ray
`maxima + rad_pts[:,None] * cart_sphere_pt` and its densities, then runs
the inner `for` loop.  On `is_ray_to_inf` the index is **recomputed** at
line 375 as `np.argsort(np.abs(ray_density - iso_val))[0]` — the index of
the ray sample whose density is closest to `iso_val` — discarding any index
set at line 370.  A refinement outcome re-enters the loop with the refined
grid and reduced step; a fall-through with no flags (empty ray) repeats the
identical state forever (fuel exhaustion). -/
def solveBndLoop (solver : OdeSolver) (densityFunc : V3 → Q)
    (densCutoff bndErr isoVal : Q) (maxima cartSpherePt : V3)
    (otherMaximas : List V3) (betaSphereMaxima : Option Q)
    (betaSphereOthers : Option (List Q)) (gpFuel : ℕ) :
    ℕ → List Q → Q → Except QtaimErr BndResult
  | 0, _, _ => .error .outOfFuel
  | fuel + 1, radPts, ssRay =>
    let ray := radPts.map (fun r => maxima + r • cartSpherePt)
    let rayDensity := ray.map densityFunc
    match rayLoop solver densCutoff bndErr maxima otherMaximas betaSphereMaxima
        betaSphereOthers gpFuel radPts ray rayDensity ssRay with
    | .error e => .error e
    | .ok (.watershed bndPt basinId) =>
      .ok ⟨some bndPt, false, none, true, some basinId⟩
    | .ok (.refineGrid newRadPts newSs) =>
      solveBndLoop solver densityFunc densCutoff bndErr isoVal maxima cartSpherePt
        otherMaximas betaSphereMaxima betaSphereOthers gpFuel fuel newRadPts newSs
    | .ok .toInf =>
      .ok ⟨none, true, some (argminAbsDev rayDensity isoVal), false, none⟩
    | .ok .fellThrough =>
      solveBndLoop solver densityFunc densCutoff bndErr isoVal maxima cartSpherePt
        otherMaximas betaSphereMaxima betaSphereOthers gpFuel fuel radPts ssRay

/-- `solve_for_basin_bnd_pt(dens_cutoff, maxima, radial, cart_sphere_pt,
density_func, grad_func, other_maximas, bnd_err, iso_val,
beta_sphere_maxima, beta_sphere_others)` (lines 301-378).  The initial step
size is `ss_ray = np.mean(np.diff(rad_pts))` (line 316). -/
def solve_for_basin_bnd_pt (solver : OdeSolver) (densityFunc : V3 → Q)
    (densCutoff : Q) (maxima : V3) (radial : List Q) (cartSpherePt : V3)
    (otherMaximas : List V3) (bndErr isoVal : Q)
    (betaSphereMaxima : Option Q) (betaSphereOthers : Option (List Q))
    (fuel gpFuel : ℕ) : Except QtaimErr BndResult :=
  solveBndLoop solver densityFunc densCutoff bndErr isoVal maxima cartSpherePt
    otherMaximas betaSphereMaxima betaSphereOthers gpFuel fuel radial
    (meanDiff radial)

/-! ## Maxima locator (`_optimize_centers`, lines 381-393) -/

/-- The duplicate test of `_optimize_centers` (lines 389-391):
`cdist(maximas, maximas)` with the diagonal overwritten by `1.0`, then
`np.any(distance < 1e-8)`.  Equivalent to: some off-diagonal pair lies at
distance below `1e-8` (the diagonal value `1.0` never triggers). -/
def hasDuplicateMaxima (ms : List V3) : Bool :=
  (List.range ms.length).any (fun i => (List.range ms.length).any (fun j =>
    decide (i ≠ j) &&
      distLt (ms.getD i default) (ms.getD j default) ((1 : Q) / 100000000)))

/-- `exceptMapM f l`: sequence `f` over `l`, stopping at the first error
(the list-comprehension / loop idiom of the source). -/
def exceptMapM {α β : Type} (f : α → Except QtaimErr β) :
    List α → Except QtaimErr (List β)
  | [] => .ok []
  | a :: as =>
    match f a with
    | .error e => .error e
    | .ok b =>
      match exceptMapM f as with
      | .error e => .error e
      | .ok bs => .ok (b :: bs)

/-- `_optimize_centers(centers, grad_func)` (lines 381-393): refine every
seed with `gradient_path(x, grad_func, t_span=(0, 10), method="Radau",
first_step=1e-9, max_step=1e-2)` (remaining parameters at their defaults,
in particular no beta sphere), then fail with the `RuntimeError` at
line 391 when the refined maxima contain an off-diagonal pair closer than
`1e-8`. -/
def _optimize_centers (solver : OdeSolver) (centers : List V3) (gpFuel : ℕ) :
    Except QtaimErr (List V3) :=
  match exceptMapM (fun c => gradient_path solver c (0, 10) "Radau"
      ((1 : Q) / 100) 200 10 ((1 : Q) / 1000000000) none default gpFuel) centers with
  | .error e => .error e
  | .ok maximas =>
    if hasDuplicateMaxima maximas then .error .duplicateMaxima else .ok maximas

/-! ## Top level (`qtaim_surface`, lines 396-546) -/

/-- Per-ray classification (lines 512-517): a ray either reaches the
isosurface (`is_ray_to_inf`, index appended to `oas`) or found a watershed
(index appended to `ias`, with the recorded neighbour `basin_id`). -/
inductive SurfClass where
  | oasC : SurfClass
  | iasC (basinId : ℕ) : SurfClass
deriving DecidableEq, Repr

def SurfClass.isOas : SurfClass → Bool
  | .oasC => true
  | .iasC _ => false

/-- The body of the `for i_ang in range(0, numb_ang_pts)` loop
(lines 493-517) for one angular point: run `solve_for_basin_bnd_pt`
(line 501); if the ray goes to infinity, solve for the isosurface point
with the returned index over the *same filtered radial grid* (line 507);
record `r_func = np.linalg.norm(bnd_pt - maxima)` (line 512) together with
the OAS/IAS classification.  A `None` boundary point or index (impossible
for the results the solver produces) models the crash Python would have at
line 512 resp. line 282. -/
def processAngular (solver : OdeSolver) (densityFunc : V3 → Q)
    (rootScalar : RootScalar) (densCutoff bndErr isoVal isoErr : Q)
    (maxima : V3) (otherMaximas : List V3) (betaSphMax : Option Q)
    (betaOthers : Option (List Q)) (radial : List Q) (fuel gpFuel : ℕ)
    (cartSpherePt : V3) : Except QtaimErr (Q × SurfClass) :=
  match solve_for_basin_bnd_pt solver densityFunc densCutoff maxima radial
      cartSpherePt otherMaximas bndErr isoVal betaSphMax betaOthers fuel gpFuel with
  | .error e => .error e
  | .ok res =>
    if res.isRayToInf then
      match res.indexIso with
      | none => .error .noneValue
      | some iIso =>
        match solve_for_isosurface_pt densityFunc rootScalar iIso radial maxima
            cartSpherePt isoVal isoErr with
        | .error e => .error e
        | .ok bndPt => .ok (norm3 (bndPt - maxima), .oasC)
    else if res.foundWatershed then
      match res.bndPt with
      | none => .error .noneValue
      | some p => .ok (norm3 (p - maxima), .iasC (res.basinId.getD 0))
    else .error .noneValue

/-- The per-basin `r_func` values in angular order (the assignments
`r_func[i_maxima][i_ang] = ...` at line 512). -/
def rvalsOfTags (tags : List (Q × SurfClass)) : List Q := tags.map (·.1)

/-- The per-basin `oas` list (line 514).  The source appends `i_ang` for
each ray classified OAS, in ascending `i_ang` order; this is the same list
as filtering the index range by the classification. -/
def oasOfTags (tags : List (Q × SurfClass)) : List ℕ :=
  (List.range tags.length).filter (fun k => (tags.getD k (0, .oasC)).2.isOas)

/-- The per-basin `ias` list (line 516), as for `oasOfTags`. -/
def iasOfTags (tags : List (Q × SurfClass)) : List ℕ :=
  (List.range tags.length).filter (fun k => !(tags.getD k (0, .oasC)).2.isOas)

/-- The per-basin `basin_ias` list (line 517): the recorded neighbour ids
of the IAS rays, in ascending `i_ang` order. -/
def biasOfTags (tags : List (Q × SurfClass)) : List ℕ :=
  tags.filterMap (fun t => match t.2 with | .iasC id => some id | .oasC => none)

/-- The dynamically-typed `refine` parameter: a Python bool, a Python int
(`bool` is checked first at lines 480/521 via `type(refine) == type(True)`,
so the two are distinguished), or any other value (`.other`), which fails
the `isinstance(refine, (bool, int))` validation at line 455. -/
inductive RefineArg where
  | rbool (b : Bool) : RefineArg
  | rint (i : ℕ) : RefineArg
  | other : RefineArg
deriving DecidableEq, Repr

def RefineArg.isInvalidType : RefineArg → Bool
  | .other => true
  | _ => false

/-- Python truthiness of `refine` (line 479: `[] if refine else None`). -/
def RefineArg.truthy : RefineArg → Bool
  | .rbool b => b
  | .rint i => decide (i ≠ 0)
  | .other => false

/-- Line 480: `maxima_to_do = range(0, numb_maximas) if type(refine) ==
type(True) else [refine]`. -/
def maximaToDo : RefineArg → ℕ → List ℕ
  | .rbool _, m => List.range m
  | .rint i, _ => [i]
  | .other, _ => []

/-- The surface model returned at line 546:
`SurfaceQTAIM(r_func, [rgrids], angular, maximas, oas, ias, basin_ias,
refined_ang)`.  Note the source wraps the single radial grid in a singleton
list.  `angularPts` stores the `angular` argument (the embedding always
receives the explicit Cartesian point set; an integer degree is delegated
by the source to the external `AngularGrid` generator at line 471). -/
structure SurfaceQTAIM where
  rFunc : List (List Q)
  radGrids : List (List Q)
  angularPts : List V3
  maximas : List V3
  oas : List (List ℕ)
  ias : List (List ℕ)
  basinsIas : List (List ℕ)
  refinedAng : Option (List (List V3))
deriving DecidableEq, Repr

/-- Per-basin accumulated data of the main loop (lines 475-543). -/
structure BasinData where
  rvals : List Q
  oas : List ℕ
  ias : List ℕ
  basinIas : List ℕ
  refAng : Option (List V3)
deriving DecidableEq, Repr

/-- One pass of the `for i_maxima, maxima in enumerate(maximas)` loop of
`qtaim_surface` (lines 481-543), producing basin `i_maxima`'s data.  For a
basin in `maxima_to_do`: delete the own maximum from the maxima array
(line 486), select the per-basin beta data (lines 489-491), filter the
radial grid past the own beta radius (line 499), trace every angular point
(lines 493-517), and, when `refine` is the bool `True`, append the
refined-trace results of the recursive call with indices offset by the
number of base angular points (lines 521-542).  A basin outside
`maxima_to_do` keeps its initialised state (lines 475-478). -/
def qtaimBasinStep (solver : OdeSolver) (densityFunc : V3 → Q)
    (rootScalar : RootScalar)
    (newPtsFn : List ℕ → List ℕ → List V3 → List Q → V3 → List V3)
    (fuel gpFuel : ℕ)
    (recurse : List Q → List V3 → List V3 → Q → Q → Q → Q →
      Option (List Q) → Bool → RefineArg → Except QtaimErr SurfaceQTAIM)
    (rgridPts : List Q) (angularPts : List V3)
    (isoVal densCutoff bndErr isoErr : Q) (betaSphere : Option (List Q))
    (refine : RefineArg) (maximas : List V3) (iMaxima : ℕ) :
    Except QtaimErr BasinData :=
  let numbAngPts := angularPts.length
  if iMaxima ∈ maximaToDo refine maximas.length then
    let maxima := maximas.getD iMaxima default
    let otherMaximas := maximas.eraseIdx iMaxima
    let betaSphMax : Option Q := betaSphere.map (fun bs => bs.getD iMaxima 0)
    let betaOthers : Option (List Q) :=
      betaSphere.map (fun bs => bs.eraseIdx iMaxima)
    let radial := match betaSphere with
      | none => rgridPts
      | some bs => rgridPts.filter (fun r => Q.blt (bs.getD iMaxima 0) r)
    match exceptMapM (processAngular solver densityFunc rootScalar densCutoff
        bndErr isoVal isoErr maxima otherMaximas betaSphMax betaOthers radial
        fuel gpFuel) angularPts with
    | .error e => .error e
    | .ok tags =>
      let base : BasinData :=
        ⟨rvalsOfTags tags, oasOfTags tags, iasOfTags tags, biasOfTags tags, none⟩
      if refine = .rbool true then
        let newPts := newPtsFn base.ias base.oas angularPts base.rvals maxima
        match recurse rgridPts newPts maximas isoVal densCutoff bndErr isoErr
            betaSphere false (.rint iMaxima) with
        | .error e => .error e
        | .ok refined =>
          .ok ⟨base.rvals ++ refined.rFunc.getD iMaxima [],
               base.oas ++ (refined.oas.getD iMaxima []).map (· + numbAngPts),
               base.ias ++ (refined.ias.getD iMaxima []).map (· + numbAngPts),
               base.basinIas ++ refined.basinsIas.getD iMaxima [],
               some newPts⟩
      else .ok base
  else .ok ⟨List.replicate numbAngPts 0, [], [], [], none⟩

/-- The body of `qtaim_surface` (lines 455-546), parametrised by `recurse`,
the recursive call used by the refinement branch (lines 531-534).

Validation order follows the source: `refine` type (line 455), then
`dens_cutoff > iso_val` (line 457), then the beta-sphere length (line 459);
only afterwards is `_optimize_centers` invoked (line 468) and tracing
begun.

Per basin in `maxima_to_do`: the other maximas are `np.delete(maximas,
i_maxima)` (line 486), the per-basin beta data `beta_sphere[i_maxima]` and
the list of the others' radii (lines 489-491), and the radial grid is
filtered to radii strictly greater than the basin's beta radius (line 499).
Every angular point is traced (lines 493-517).  With `refine=True` (a
bool), extra angular points are generated by the collaborator
`construct_points_between_ias_and_oas` (line 526) and the function recurses
on them restricted to this basin with `optimize_centers=False` and
`refine=i_maxima` (lines 531-534); the refined basin's lists are appended
with indices offset by `numb_ang_pts` (lines 537-542).  Basins outside
`maxima_to_do` keep their initialised state: `r_func` all zeros and empty
`oas`/`ias`/`basin_ias` (lines 475-478). -/
def qtaimBody (solver : OdeSolver) (densityFunc : V3 → Q)
    (rootScalar : RootScalar)
    (newPtsFn : List ℕ → List ℕ → List V3 → List Q → V3 → List V3)
    (fuel gpFuel : ℕ)
    (recurse : List Q → List V3 → List V3 → Q → Q → Q → Q →
      Option (List Q) → Bool → RefineArg → Except QtaimErr SurfaceQTAIM)
    (rgridPts : List Q) (angularPts : List V3) (centers : List V3)
    (isoVal densCutoff bndErr isoErr : Q) (betaSphere : Option (List Q))
    (optimizeCenters : Bool) (refine : RefineArg) :
    Except QtaimErr SurfaceQTAIM :=
  if refine.isInvalidType then .error .typeErrorRefine
  else if Q.blt isoVal densCutoff then .error .configDensCutoff
  else if (match betaSphere with
           | some bs => decide (centers.length ≠ bs.length)
           | none => false) then .error .configBetaLength
  else
    match (if optimizeCenters then _optimize_centers solver centers gpFuel
           else .ok centers) with
    | .error e => .error e
    | .ok maximas =>
      match exceptMapM (qtaimBasinStep solver densityFunc rootScalar newPtsFn
          fuel gpFuel recurse rgridPts angularPts isoVal densCutoff bndErr
          isoErr betaSphere refine maximas) (List.range maximas.length) with
      | .error e => .error e
      | .ok datas =>
        .ok ⟨datas.map (·.rvals), [rgridPts], angularPts, maximas,
             datas.map (·.oas), datas.map (·.ias), datas.map (·.basinIas),
             if refine.truthy then some (datas.filterMap (·.refAng)) else none⟩

/-- `qtaim_surface` with an explicit recursion depth for the refinement
branch.  The source's recursive call always passes an integer `refine`,
which never recurses again, so depth `1` realises the source behaviour. -/
def qtaimGo (solver : OdeSolver) (densityFunc : V3 → Q)
    (rootScalar : RootScalar)
    (newPtsFn : List ℕ → List ℕ → List V3 → List Q → V3 → List V3)
    (fuel gpFuel : ℕ) :
    ℕ → List Q → List V3 → List V3 → Q → Q → Q → Q →
      Option (List Q) → Bool → RefineArg → Except QtaimErr SurfaceQTAIM
  | 0 => qtaimBody solver densityFunc rootScalar newPtsFn fuel gpFuel
      (fun _ _ _ _ _ _ _ _ _ _ => .error .outOfFuel)
  | depth + 1 => qtaimBody solver densityFunc rootScalar newPtsFn fuel gpFuel
      (qtaimGo solver densityFunc rootScalar newPtsFn fuel gpFuel depth)

/-- `qtaim_surface(rgrids, angular, centers, density_func, grad_func,
iso_val, dens_cutoff, bnd_err, iso_err, beta_sphere, optimize_centers,
refine)` (lines 396-546).  Collaborators: the ODE solver (for
`grad_func`-driven integration), the density function, the bracketed
root-finder, and `construct_points_between_ias_and_oas` (`newPtsFn`; its
convex-hull geometry is outside the claims verified here).  `fuel` bounds
the ray-refinement `while` loops and `gpFuel` the `gradient_path` retry
loops. -/
def qtaim_surface (solver : OdeSolver) (densityFunc : V3 → Q)
    (rootScalar : RootScalar)
    (newPtsFn : List ℕ → List ℕ → List V3 → List Q → V3 → List V3)
    (fuel gpFuel : ℕ) (rgridPts : List Q) (angularPts : List V3)
    (centers : List V3) (isoVal densCutoff bndErr isoErr : Q)
    (betaSphere : Option (List Q)) (optimizeCenters : Bool)
    (refine : RefineArg) : Except QtaimErr SurfaceQTAIM :=
  qtaimGo solver densityFunc rootScalar newPtsFn fuel gpFuel 1 rgridPts
    angularPts centers isoVal densCutoff bndErr isoErr betaSphere
    optimizeCenters refine

/-! ## Result accessors -/

/-- The `oas` list of basin `b` of a surface-construction result (empty on
error / out of range). -/
def getOas (r : Except QtaimErr SurfaceQTAIM) (b : ℕ) : List ℕ :=
  match r with
  | .ok s => s.oas.getD b []
  | .error _ => []

/-- The `ias` list of basin `b` of a surface-construction result. -/
def getIas (r : Except QtaimErr SurfaceQTAIM) (b : ℕ) : List ℕ :=
  match r with
  | .ok s => s.ias.getD b []
  | .error _ => []

/-- The `basin_ias` list of basin `b` of a surface-construction result. -/
def getBasinIas (r : Except QtaimErr SurfaceQTAIM) (b : ℕ) : List ℕ :=
  match r with
  | .ok s => s.basinsIas.getD b []
  | .error _ => []

/-- The `r_func` array of basin `b` of a surface-construction result. -/
def getRFunc (r : Except QtaimErr SurfaceQTAIM) (b : ℕ) : List Q :=
  match r with
  | .ok s => s.rFunc.getD b []
  | .error _ => []

/-- The number of maximas of a surface-construction result. -/
def getNumMaximas (r : Except QtaimErr SurfaceQTAIM) : ℕ :=
  match r with
  | .ok s => s.maximas.length
  | .error _ => 0

/-! ## Basin-scoped integration grid
(`SurfaceQTAIM.get_atom_grid_over_basin`, lines 121-137) -/

/-- Model of the external `grid.atomgrid.AtomGrid` as read by
`get_atom_grid_over_basin`: the radial grid points, the common shell size
`nAng` (`atom_grid.get_shell_grid(0).size`), the center, and the flat
weight array. -/
structure AtomGridQ where
  rpoints : List Q
  nAng : ℕ
  center : V3
  weights : List Q
deriving DecidableEq, Repr

/-- `SurfaceQTAIM.get_atom_grid_over_basin(i_basin)` (lines 121-137): build
the atom grid over the basin's radial grid centered at its maximum (the
quadrature construction itself is the external `AtomGrid` collaborator,
which supplies the shell size `nAng` and the initial weights), then run the
weight-zeroing loop of lines 128-135.  The first statement of that loop
(line 129) reads `self.r_func[i_basin, i_sph]` — a tuple index.  `r_func`
is a Python `list` of per-basin 1-D arrays for every surface this module
constructs (the list comprehension at line 475 builds it; `np.hstack` at
line 542 replaces elements but keeps the container a list; line 546 passes
it to the constructor unchanged), and tuple-indexing a list raises
`TypeError: list indices must be integers or slices, not tuple`.  The loop
body therefore crashes at the first spherical sample; only an empty shell
grid (`nAng = 0`) skips the loop and returns the grid with its weights
untouched. -/
def SurfaceQTAIM.get_atom_grid_over_basin (s : SurfaceQTAIM) (iBasin : ℕ)
    (nAng : ℕ) (initWeights : List Q) : Except QtaimErr AtomGridQ :=
  let rpts := s.radGrids.getD iBasin []
  if nAng = 0 then
    .ok ⟨rpts, nAng, s.maximas.getD iBasin default, initWeights⟩
  else .error .typeErrorRFuncIndex

/-! ## Definitions taken from the specification's words (for the
refinement comparison of claim C2) -/

/-- Modelled from the spec (§4.5 HitDensityFloor): "the first radius where
density drops below cutoff (or the final grid radius, whichever comes
first)". -/
def specFloorCrossIdx (rayDensity : List Q) (densCutoff : Q) : ℕ :=
  match rayDensity.findIdx? (fun d => Q.blt d densCutoff) with
  | some i => i
  | none => rayDensity.length - 1

/-- Modelled from the spec (§4.5 ResolvingIsosurface / claim C2): "bracket
the isosurface value using the radius immediately before and after the
floor-crossing index", "with the lower bound taken as half the crossing
radius when the crossing is at the first grid point and the upper bound as
double the crossing radius when it is at the last grid point". -/
def specBracket (radPts : List Q) (idx : ℕ) : Q × Q :=
  (if idx = 0 then radPts.getD 0 0 / 2 else radPts.getD (idx - 1) 0,
   if idx + 1 < radPts.length then radPts.getD (idx + 1) 0
   else radPts.getD idx 0 * 2)

/-! ## Concrete configurations

A two-maxima system on the x-axis with axis-aligned rays, chosen so that
every stored norm is an exact rational: maxima at the origin and at
`(1,0,0)`, one ray direction towards the other maximum and one away, a
two-point radial grid, a piecewise density that stays above the cutoff
between the maxima and drops below it outside, a gradient-flow collaborator
that sends a point to the maximum on its side of the midplane `x = 1/2`,
and a root-finder collaborator returning the bracket midpoint. -/

def exM0 : V3 := ⟨0, 0, 0⟩

def exM1 : V3 := ⟨1, 0, 0⟩

def exCenters : List V3 := [exM0, exM1]

def exDir0 : V3 := ⟨1, 0, 0⟩

def exDir1 : V3 := ⟨-1, 0, 0⟩

def exAngular : List V3 := [exDir0, exDir1]

def exRadial : List Q := [(1 : Q) / 2, (10001 : Q) / 20000]

/-- Piecewise density: `2e-3` on `-0.500049 ≤ x ≤ 1.500049` and `5e-6`
outside. -/
def exDensity (p : V3) : Q :=
  if Q.blt p.x (-((500049 : Q) / 1000000)) ||
      Q.blt ((1500049 : Q) / 1000000) p.x then
    (5 : Q) / 1000000
  else (2 : Q) / 1000

/-- Gradient-flow destination: the maximum on the point's side of the
midplane. -/
def exGradDest (p : V3) : V3 := if Q.blt p.x ((1 : Q) / 2) then exM0 else exM1

/-- ODE collaborator whose trajectories converge immediately to
`exGradDest` of the starting point. -/
def exSolver : OdeSolver := fun y0 _ _ _ _ => (exGradDest y0, exGradDest y0)

/-- Root-finder collaborator: returns the bracket midpoint, converged. -/
def exRootScalar : RootScalar := fun _ l u _ => ((l + u) / 2, true)

/-- Refinement-point collaborator (never invoked in the runs below). -/
def exNewPtsFn : List ℕ → List ℕ → List V3 → List Q → V3 → List V3 :=
  fun _ _ _ _ _ => []

/-- The two-maxima run: `iso_val = 1e-3`, `dens_cutoff = 1e-5`,
`bnd_err = 1e-4`, `iso_err = 1e-6`, no beta spheres, no center
optimization. -/
def exRun (refine : RefineArg) : Except QtaimErr SurfaceQTAIM :=
  qtaim_surface exSolver exDensity exRootScalar exNewPtsFn 6 4 exRadial
    exAngular exCenters ((1 : Q) / 1000) ((1 : Q) / 100000) ((1 : Q) / 10000)
    ((1 : Q) / 1000000) none false refine

/-- As `exRun` but with duplicate seed centers and center optimization
enabled. -/
def exDupRun : Except QtaimErr SurfaceQTAIM :=
  qtaim_surface exSolver exDensity exRootScalar exNewPtsFn 6 4 exRadial
    exAngular [exM0, exM0] ((1 : Q) / 1000) ((1 : Q) / 100000)
    ((1 : Q) / 10000) ((1 : Q) / 1000000) none true (.rbool false)

/-- ODE collaborator for the beta-sphere-only watershed trigger: every
trajectory ends at `(4/5, 0, 0)`, which is `0.2` away from `exM1` — outside
the `1e-1` capture radius but inside a beta sphere of radius `0.3`. -/
def exBSolver : OdeSolver := fun _ _ _ _ _ => (⟨(4 : Q) / 5, 0, 0⟩, ⟨(4 : Q) / 5, 0, 0⟩)

/-- The endpoint produced by `exBSolver`. -/
def exY : V3 := ⟨(4 : Q) / 5, 0, 0⟩

/-- Ray trace from `exM0` along `exDir0` with beta spheres `[1/5, 3/10]`
configured (the basin's own radius `1/5`, the other maximum's `3/10`),
against `exBSolver`: the watershed trigger fires only through the beta
sphere, and recording the neighbour id crashes with an `IndexError`. -/
def exC1Run : Except QtaimErr BndResult :=
  solve_for_basin_bnd_pt exBSolver (fun _ => (2 : Q) / 1000) ((1 : Q) / 100000)
    exM0 exRadial exDir0 [exM1] ((1 : Q) / 10000) ((1 : Q) / 1000)
    (some ((1 : Q) / 5)) (some [(3 : Q) / 10]) 5 4

/-- Radial grid for the single-maximum escape trace of claim C2. -/
def exCRadial : List Q := [(1 : Q) / 2, (3 : Q) / 5, (7 : Q) / 10, (4 : Q) / 5]

/-- Density along the x-axis for the C2 trace: `0.01`, `9e-4`, `5e-5`,
`1e-6` at the four ray points `x = 0.5, 0.6, 0.7, 0.8`. -/
def exCDensity (p : V3) : Q :=
  if Q.blt p.x ((11 : Q) / 20) then (1 : Q) / 100
  else if Q.blt p.x ((13 : Q) / 20) then (9 : Q) / 10000
  else if Q.blt p.x ((3 : Q) / 4) then (5 : Q) / 100000
  else (1 : Q) / 1000000

/-- ODE collaborator converging immediately to the single maximum. -/
def exCSolver : OdeSolver := fun _ _ _ _ _ => (exM0, exM0)

/-- Single-maximum trace along `exDir0` (no other maxima, no beta
spheres). -/
def exC2Run : Except QtaimErr BndResult :=
  solve_for_basin_bnd_pt exCSolver exCDensity ((1 : Q) / 100000) exM0 exCRadial
    exDir0 [] ((1 : Q) / 10000) ((1 : Q) / 1000) none none 5 4

/-- The density values along the C2 ray. -/
def exC2RayDensity : List Q :=
  (exCRadial.map (fun r => exM0 + r • exDir0)).map exCDensity

/-- ODE collaborator for the `gradient_path` non-termination of claim C3:
the last two trajectory positions are always `(0,0,0)` and `(2,0,0)` — not
converged (they differ by `2` in `x`) and, with `maxima = exM0`, the
endpoint sits at distance `2` from the maximum, outside any small beta
sphere. -/
def exStuckSolver : OdeSolver := fun _ _ _ _ _ => (⟨0, 0, 0⟩, ⟨2, 0, 0⟩)

/-- A small surface model for the atom-grid claim: one basin with boundary
radii `[1, 2]` over directions `0, 1` and radial grid `[1, 3]`. -/
def exSurf : SurfaceQTAIM :=
  ⟨[[1, 2]], [[1, 3]], [exDir0, exDir1], [exM0], [[0, 1]], [[]], [[]], none⟩

/-! ## Claims -/

/-- The densities at the two bracket radii of `solve_for_isosurface_pt`
(lines 284-285). -/
def isoDensL (densityFunc : V3 → Q) (radPts : List Q) (idx : ℕ)
    (maxima dir : V3) : Q :=
  densityFunc (maxima + (isoBracket radPts idx).1 • dir)

def isoDensU (densityFunc : V3 → Q) (radPts : List Q) (idx : ℕ)
    (maxima dir : V3) : Q :=
  densityFunc (maxima + (isoBracket radPts idx).2 • dir)

/-- C8: the isosurface root-finder validates, before invoking the bracketed
method, that `density(l_bnd) ≥ iso_val ≥ density(u_bnd)` — the code's test
`iso_val < dens_u_bnd or dens_l_bnd < iso_val` is exactly the negation —
and on failure raises the bracket `ValueError` carrying the bracket radii
and both densities, without invoking the root-finder at all (the result is
the same error for *every* root-finder collaborator); and when the
bracketed method reports non-convergence it fails with the line-295
assertion error rather than returning a point. -/
theorem C8_iso_validation_and_convergence (densityFunc : V3 → Q)
    (rootScalar : RootScalar) (idx : ℕ) (radPts : List Q) (maxima dir : V3)
    (isoVal isoErr : Q) :
    ((Q.blt isoVal (isoDensU densityFunc radPts idx maxima dir) ||
        Q.blt (isoDensL densityFunc radPts idx maxima dir) isoVal) = true →
      ∀ rootScalar' : RootScalar,
        solve_for_isosurface_pt densityFunc rootScalar' idx radPts maxima dir
            isoVal isoErr =
          .error (.bracket (isoBracket radPts idx).1 (isoBracket radPts idx).2
            (isoDensL densityFunc radPts idx maxima dir)
            (isoDensU densityFunc radPts idx maxima dir)))
    ∧ ((Q.blt isoVal (isoDensU densityFunc radPts idx maxima dir) ||
        Q.blt (isoDensL densityFunc radPts idx maxima dir) isoVal) = false →
      (rootScalar (fun t => densityFunc (maxima + t • dir) - isoVal)
          (isoBracket radPts idx).1 (isoBracket radPts idx).2 isoErr).2 = false →
      solve_for_isosurface_pt densityFunc rootScalar idx radPts maxima dir
          isoVal isoErr =
        .error (.rootNoConverge (isoBracket radPts idx).1
          (isoBracket radPts idx).2)) := by
  unfold isoDensL isoDensU
  constructor
  · intro h rootScalar'
    unfold solve_for_isosurface_pt
    simp only [h, if_true]
  · intro h hconv
    unfold solve_for_isosurface_pt
    simp only [h, Bool.false_eq_true, if_false, hconv]

/-- Witness for C8: at index `0` over `exCRadial` the bracket is
`(4/5, 3/5)` (Python's `rad_pts[-1]` and `rad_pts[1]`), the density at the
lower radius is `1e-6 < iso_val`, and the call fails with the bracket
error. -/
theorem C8_iso_validation_witness :
    (Q.blt ((1 : Q) / 1000) (isoDensU exCDensity exCRadial 0 exM0 exDir0) ||
        Q.blt (isoDensL exCDensity exCRadial 0 exM0 exDir0) ((1 : Q) / 1000)) = true
    ∧ solve_for_isosurface_pt exCDensity exRootScalar 0 exCRadial exM0 exDir0
        ((1 : Q) / 1000) ((1 : Q) / 1000000) =
      .error (.bracket ((4 : Q) / 5) ((3 : Q) / 5) ((1 : Q) / 1000000)
        ((9 : Q) / 10000)) :=
  ⟨by decide,
   by
    have h := (C8_iso_validation_and_convergence exCDensity exRootScalar 0
      exCRadial exM0 exDir0 ((1 : Q) / 1000) ((1 : Q) / 1000000)).1
      (by decide) exRootScalar
    exact h.trans (by decide)⟩

/-- The configuration error `qtaim_surface` raises, in the source's
validation order (lines 455-463). -/
def configError (refine : RefineArg) (isoVal densCutoff : Q) : QtaimErr :=
  if refine.isInvalidType then .typeErrorRefine
  else if Q.blt isoVal densCutoff then .configDensCutoff
  else .configBetaLength

/-- C6: `qtaim_surface` validates its configuration eagerly.  For every
invalid configuration — `refine` of invalid type, `dens_cutoff > iso_val`,
or a beta-sphere list whose length differs from the number of centers — the
call returns the corresponding configuration error *for every choice of the
density, gradient-flow (ODE), root-finder and refinement-point
collaborators and every fuel*: none of them is ever invoked, and no
(partial) surface is produced. -/
theorem C6_eager_config_validation (rgridPts : List Q) (angularPts : List V3)
    (centers : List V3) (isoVal densCutoff bndErr isoErr : Q)
    (betaSphere : Option (List Q)) (optimizeCenters : Bool) (refine : RefineArg)
    (h : refine.isInvalidType = true ∨ Q.blt isoVal densCutoff = true ∨
      (∃ bs, betaSphere = some bs ∧ centers.length ≠ bs.length)) :
    ∀ (solver : OdeSolver) (densityFunc : V3 → Q) (rootScalar : RootScalar)
      (newPtsFn : List ℕ → List ℕ → List V3 → List Q → V3 → List V3)
      (fuel gpFuel : ℕ),
      qtaim_surface solver densityFunc rootScalar newPtsFn fuel gpFuel rgridPts
          angularPts centers isoVal densCutoff bndErr isoErr betaSphere
          optimizeCenters refine =
        .error (configError refine isoVal densCutoff) := by
  intro solver densityFunc rootScalar newPtsFn fuel gpFuel
  unfold qtaim_surface qtaimGo qtaimBody configError
  rcases h with h | h | ⟨bs, hbs, hlen⟩
  · simp only [h, if_true]
  · by_cases hinv : refine.isInvalidType = true
    · simp only [hinv, if_true]
    · simp only [hinv, Bool.false_eq_true, if_false, h, if_true]
  · by_cases hinv : refine.isInvalidType = true
    · simp only [hinv, if_true]
    · by_cases hcut : Q.blt isoVal densCutoff = true
      · simp only [hinv, Bool.false_eq_true, if_false, hcut, if_true]
      · simp only [hinv, hcut, Bool.false_eq_true, if_false, hbs,
          decide_eq_true hlen, if_true]

/-- Witness for C6: with `dens_cutoff = 1e-2 > iso_val = 1e-3` the call
fails with the cutoff configuration error before any collaborator runs. -/
theorem C6_eager_config_validation_witness :
    Q.blt ((1 : Q) / 1000) ((1 : Q) / 100) = true
    ∧ qtaim_surface exSolver exDensity exRootScalar exNewPtsFn 6 4 exRadial
        exAngular exCenters ((1 : Q) / 1000) ((1 : Q) / 100) ((1 : Q) / 10000)
        ((1 : Q) / 1000000) none true (.rbool false) =
      .error .configDensCutoff :=
  ⟨by decide,
   (C6_eager_config_validation exRadial exAngular exCenters ((1 : Q) / 1000)
      ((1 : Q) / 100) ((1 : Q) / 10000) ((1 : Q) / 1000000) none true
      (.rbool false) (Or.inr (Or.inl (by decide))) exSolver exDensity
      exRootScalar exNewPtsFn 6 4).trans (by decide)⟩

/-- C7: with center optimization enabled, every seed is refined by
`gradient_path` with the short horizon `(0, 10)`, `method="Radau"`,
`max_step=1e-2`, `first_step=1e-9`; when the refined maxima contain an
off-diagonal pair at distance below `1e-8`, the whole call fails with the
duplicate-maxima error, for *every* choice of the density, root-finder and
refinement-point collaborators — none of the ray tracing or surface work is
reached. -/
theorem C7_duplicate_maxima_abort (solver : OdeSolver) (rgridPts : List Q)
    (angularPts : List V3) (centers : List V3) (isoVal densCutoff bndErr isoErr : Q)
    (betaSphere : Option (List Q)) (refine : RefineArg) (fuel gpFuel : ℕ)
    (ms : List V3)
    (hrefine : refine.isInvalidType = false)
    (hcutoff : Q.blt isoVal densCutoff = false)
    (hbeta : (match betaSphere with
              | some bs => decide (centers.length ≠ bs.length)
              | none => false) = false)
    (hrefined : exceptMapM (fun c => gradient_path solver c (0, 10) "Radau"
        ((1 : Q) / 100) 200 10 ((1 : Q) / 1000000000) none default gpFuel)
        centers = .ok ms)
    (hdup : hasDuplicateMaxima ms = true) :
    ∀ (densityFunc : V3 → Q) (rootScalar : RootScalar)
      (newPtsFn : List ℕ → List ℕ → List V3 → List Q → V3 → List V3),
      qtaim_surface solver densityFunc rootScalar newPtsFn fuel gpFuel rgridPts
          angularPts centers isoVal densCutoff bndErr isoErr betaSphere
          true refine =
        .error .duplicateMaxima := by
  intro densityFunc rootScalar newPtsFn
  unfold qtaim_surface qtaimGo qtaimBody _optimize_centers
  simp only [hrefine, hcutoff, hbeta, Bool.false_eq_true, if_false, if_true,
    hrefined, hdup]

/-- Witness for C7: two identical seeds both refine to the origin and the
call aborts with the duplicate-maxima error. -/
theorem C7_duplicate_maxima_witness :
    exceptMapM (fun c => gradient_path exSolver c (0, 10) "Radau"
        ((1 : Q) / 100) 200 10 ((1 : Q) / 1000000000) none default 4)
        [exM0, exM0] = .ok [exM0, exM0]
    ∧ hasDuplicateMaxima [exM0, exM0] = true
    ∧ exDupRun = .error .duplicateMaxima :=
  ⟨by decide, by decide,
   C7_duplicate_maxima_abort exSolver exRadial exAngular [exM0, exM0]
     ((1 : Q) / 1000) ((1 : Q) / 100000) ((1 : Q) / 10000) ((1 : Q) / 1000000)
     none (.rbool false) 6 4 [exM0, exM0] (by decide) (by decide) (by decide)
     (by decide) (by decide) exDensity exRootScalar exNewPtsFn⟩

/-- The stuck branch of `gradient_path` (lines 256-261): when a beta sphere
is configured and the attempt neither converges componentwise nor ends
inside the sphere, the loop repeats with *unchanged* state (`y0`, `t_span`
and `numb_times` as before): the source has no retry update for this
case. -/
theorem gradient_path_stuck_step (solver : OdeSolver) (method : String)
    (maxStep tInc : Q) (maxTries : ℕ) (firstStep : Q) (b : Q) (maxima : V3)
    (fuel : ℕ) (y0 : V3) (tspan : Q × Q) (numbTimes : ℕ)
    (hn : numbTimes < maxTries)
    (hconv : gpConverged (solver y0 tspan method maxStep firstStep).1
      (solver y0 tspan method maxStep firstStep).2 = false)
    (hbeta : normLt ((solver y0 tspan method maxStep firstStep).2 - maxima) b
      = false) :
    gradient_path_loop solver method maxStep tInc maxTries firstStep (some b)
        maxima (fuel + 1) y0 tspan numbTimes =
      gradient_path_loop solver method maxStep tInc maxTries firstStep (some b)
        maxima fuel y0 tspan numbTimes := by
  conv_lhs => rw [gradient_path_loop]
  simp only [hn, if_true, hconv, hbeta, Bool.false_eq_true, if_false]

/-- Complement to the stuck-step lemma: with *no* beta sphere configured
(`beta_sphere_maxima = -np.inf`), the retry loop of `gradient_path` is
genuinely bounded by the attempt budget — it returns or raises the
`ConvergenceError` within `max_tries` passes, never exhausting any fuel
above that.  The non-termination of claim C3 is confined to the
beta-sphere branch. -/
theorem gradient_path_none_bounded (solver : OdeSolver) (method : String)
    (maxStep tInc : Q) (maxTries : ℕ) (firstStep : Q) (maxima : V3) :
    ∀ (fuel numbTimes : ℕ) (y0 : V3) (tspan : Q × Q),
      maxTries - numbTimes < fuel →
      gradient_path_loop solver method maxStep tInc maxTries firstStep none
          maxima fuel y0 tspan numbTimes ≠ .error .outOfFuel := by
  intro fuel
  induction fuel with
  | zero =>
    intro numbTimes y0 tspan h
    omega
  | succ n ih =>
    intro numbTimes y0 tspan h
    simp only [gradient_path_loop]
    split
    · next hn =>
      split
      · simp
      · exact ih (numbTimes + 1) _ _ (by omega)
    · simp

/-- C3 (code bug): `gradient_path` does **not** terminate within the
`max_tries` attempt budget on every input.  With a beta sphere configured
(`beta_sphere_maxima ≠ -np.inf`), an attempt that neither converges (the
last two positions of `exStuckSolver` differ by `2` in `x`) nor ends inside
the exclusion radius (the endpoint `(2,0,0)` is at distance `2` from the
maximum, their squared distance `4` is not below `(1/2)² = 1/4`) re-runs
the identical ODE attempt forever: the state never changes, the attempt
counter is never incremented, the horizon is never extended, and neither a
point is returned nor the `ConvergenceError` of line 270 is ever raised —
for every fuel bound the embedded loop is still running. -/
theorem C3_gradient_path_nonterminating :
    ∀ fuel : ℕ,
      gradient_path exStuckSolver ⟨3, 0, 0⟩ (0, 1000) "LSODA" 100 200 10
          ((1 : Q) / 1000) (some ((1 : Q) / 2)) exM0 fuel =
        .error .outOfFuel := by
  intro fuel
  show gradient_path_loop exStuckSolver "LSODA" 100 200 10 ((1 : Q) / 1000)
      (some ((1 : Q) / 2)) exM0 fuel ⟨3, 0, 0⟩ (0, 1000) 0 = .error .outOfFuel
  induction fuel with
  | zero => rfl
  | succ n ih =>
    rw [gradient_path_stuck_step exStuckSolver "LSODA" 100 200 10 ((1 : Q) / 1000)
      ((1 : Q) / 2) exM0 n ⟨3, 0, 0⟩ (0, 1000) 0 (by decide) (by decide)
      (by decide)]
    exact ih

/-- C5 (code bug): the recorded IAS neighbour id *can* equal the owning
basin's own id.  In the two-maxima run `exRun`, basin `0` (the maximum at
the origin) records neighbour id `1` for its IAS ray towards the maximum at
`(1,0,0)`, and basin `1` records neighbour id `1` for its IAS ray towards
the origin: the id stored at line 355 is the index into `other_maximas`
(the array with the own maximum deleted) plus one, which does not map back
to a global basin id.  Under the source's own 1-based convention (line 355:
"basins starts at 1") basin `0`'s recorded id `1` *is* basin `0`'s own id;
under 0-based ids basin `1`'s recorded id `1` is its own id.  Either way
the self-exclusion invariant fails. -/
theorem C5_ias_neighbor_id_is_own_id :
    isOkE (exRun (.rbool false)) = true
    ∧ getIas (exRun (.rbool false)) 0 = [0]
    ∧ getBasinIas (exRun (.rbool false)) 0 = [0 + 1]
    ∧ getIas (exRun (.rbool false)) 1 = [1]
    ∧ getBasinIas (exRun (.rbool false)) 1 = [1] := by decide

/-! ### Claim C9: basin-scoped integration grid -/

/-- C9: `get_atom_grid_over_basin` never returns the claimed re-weighted
basin grid: for every surface, basin index, and initial weights, as soon as
the atom grid has at least one spherical sample, the method raises the
line-129 `TypeError` (`self.r_func[i_basin, i_sph]` tuple-indexes the
Python list `r_func`) before any weight is examined.  (With an empty shell
grid the loop never runs, so no weight is zeroed on that path either.) -/
theorem C9_basin_grid_type_error (s : SurfaceQTAIM) (iBasin nAng : ℕ)
    (w : List Q) (h : nAng ≠ 0) :
    s.get_atom_grid_over_basin iBasin nAng w = .error .typeErrorRFuncIndex := by
  simp [SurfaceQTAIM.get_atom_grid_over_basin, h]

/-- Witness for C9: the one-basin surface `exSurf`, with a two-point shell
and any initial weights, crashes with the line-129 `TypeError`. -/
theorem C9_basin_grid_type_error_witness :
    exSurf.get_atom_grid_over_basin 0 2 [5, 6, 7, 8]
      = .error .typeErrorRFuncIndex :=
  C9_basin_grid_type_error exSurf 0 2 [5, 6, 7, 8] (by decide)

/-- C2 counterexample: a single-maximum trace whose ray densities are
`[1e-2, 9e-4, 5e-5, 1e-6]` against cutoff `1e-5` and `iso_val = 1e-3`.  The
claim's floor-crossing index (first density below the cutoff) is `3`, but
the index the code hands to the isosurface root-finder is
`argsort(|ρ - iso_val|)[0] = 1` (recomputed at line 375), and the bracket
actually formed, `(radial[0], radial[2]) = (1/2, 7/10)`, differs from the
claimed bracket around the floor-crossing index,
`(radial[2], 2·radial[3]) = (7/10, 8/5)`. -/
theorem C2_counterexample :
    exC2Run = .ok ⟨none, true, some 1, false, none⟩
    ∧ specFloorCrossIdx exC2RayDensity ((1 : Q) / 100000) = 3
    ∧ argminAbsDev exC2RayDensity ((1 : Q) / 1000) = 1
    ∧ isoBracket exCRadial 1 = ((1 : Q) / 2, (7 : Q) / 10)
    ∧ specBracket exCRadial 3 = ((7 : Q) / 10, (8 : Q) / 5)
    ∧ isoBracket exCRadial 1 ≠ specBracket exCRadial 3 := by decide

/-- C2 amended: for a ray classified as escaping (`is_ray_to_inf`), the
index handed to the isosurface root-finder is the position of the ray
sample whose density is *closest to `iso_val`*
(`np.argsort(np.abs(ray_density - iso_val))[0]`, line 375) — not the
position of the density-floor crossing — and the bracket formed from it at
lines 282-283 is `(rad_pts[idx-1], rad_pts[idx+1])` with Python index
semantics: at `idx = 0` the lower bound is the *last* grid radius
(`rad_pts[-1]`; the spec's halving rule is dead code, since the guard
`index_iso >= 0` always holds), and at the last position the upper bound is
double the radius there. -/
theorem C2_amended_escape_bracket (solver : OdeSolver) (densityFunc : V3 → Q)
    (densCutoff bndErr isoVal : Q) (maxima cartSpherePt : V3)
    (otherMaximas : List V3) (betaMax : Option Q)
    (betaOthers : Option (List Q)) (gpFuel fuel : ℕ) (radPts : List Q)
    (ssRay : Q) :
    (rayLoop solver densCutoff bndErr maxima otherMaximas betaMax betaOthers
        gpFuel radPts (radPts.map (fun r => maxima + r • cartSpherePt))
        ((radPts.map (fun r => maxima + r • cartSpherePt)).map densityFunc)
        ssRay = .ok .toInf →
      solveBndLoop solver densityFunc densCutoff bndErr isoVal maxima
          cartSpherePt otherMaximas betaMax betaOthers gpFuel (fuel + 1)
          radPts ssRay =
        .ok ⟨none, true,
          some (argminAbsDev
            ((radPts.map (fun r => maxima + r • cartSpherePt)).map densityFunc)
            isoVal), false, none⟩)
    ∧ ∀ (radPts' : List Q) (idx : ℕ),
        isoBracket radPts' idx =
          (if idx = 0 then radPts'.getD (radPts'.length - 1) 0
           else radPts'.getD (idx - 1) 0,
           if idx + 1 < radPts'.length then radPts'.getD (idx + 1) 0
           else radPts'.getD idx 0 * 2) := by
  constructor
  · intro h
    unfold solveBndLoop
    simp only [h]
  · intro radPts' idx
    unfold isoBracket pyGetQ
    cases idx with
    | zero => norm_num
    | succ n =>
      norm_num
      intro h
      exact absurd h (by omega)

/-- Witness for C2 (amended): the concrete single-maximum trace ends
`toInf` and the solver returns index `argsort(|ρ - iso|)[0]`. -/
theorem C2_amended_escape_bracket_witness :
    rayLoop exCSolver ((1 : Q) / 100000) ((1 : Q) / 10000) exM0 [] none none 4
        exCRadial (exCRadial.map (fun r => exM0 + r • exDir0))
        ((exCRadial.map (fun r => exM0 + r • exDir0)).map exCDensity)
        (meanDiff exCRadial) = .ok .toInf
    ∧ solveBndLoop exCSolver exCDensity ((1 : Q) / 100000) ((1 : Q) / 10000)
        ((1 : Q) / 1000) exM0 exDir0 [] none none 4 (4 + 1) exCRadial
        (meanDiff exCRadial) =
      .ok ⟨none, true,
        some (argminAbsDev
          ((exCRadial.map (fun r => exM0 + r • exDir0)).map exCDensity)
          ((1 : Q) / 1000)), false, none⟩ :=
  ⟨by decide,
   (C2_amended_escape_bracket exCSolver exCDensity ((1 : Q) / 100000)
      ((1 : Q) / 10000) ((1 : Q) / 1000) exM0 exDir0 [] none none 4 4
      exCRadial (meanDiff exCRadial)).1 (by decide)⟩

/-- C1 counterexample: a ray trace in which the gradient-flow endpoint
`exY = (4/5,0,0)` lies *outside* the `1e-1` capture radius of the other
maximum `(1,0,0)` but *inside* that maximum's configured beta sphere of
radius `3/10`, so the watershed trigger of line 347 fires, and the distance
between the two bracketing ray samples is below `bnd_err` — yet instead of
resolving the ray as IAS with a neighbour id, the lookup
`np.where(dist_maxima < 1e-1)[0][0]` at line 355 finds no match and the
trace crashes with an `IndexError`. -/
theorem C1_counterexample :
    gradient_path exBSolver ⟨(1 : Q) / 2, 0, 0⟩
        (0, Q.qmax (1000 * ((1 : Q) / 2)) 75) "LSODA" 50 200 10 ((1 : Q) / 1000)
        (some ((1 : Q) / 5)) exM0 4 = .ok exY
    ∧ normLt (exY - exM1) ((3 : Q) / 10) = true
    ∧ normLt (exY - exM1) ((1 : Q) / 10) = false
    ∧ watershedTrigger exY [exM1] (some [(3 : Q) / 10]) = true
    ∧ distLt ⟨(1 : Q) / 2, 0, 0⟩ ⟨(10001 : Q) / 20000, 0, 0⟩ ((1 : Q) / 10000)
        = true
    ∧ exC1Run = .error .indexError := by decide

/-- C1 amended: at a ray sample with density above the cutoff whose
gradient-flow endpoint lies within `1e-1` of another maximum or within
another maximum's beta sphere, the solver measures the distance between the
current and previous ray samples (Python indexing: at the first sample the
"previous" sample is the *last* ray point).  If that distance is below
`bnd_err` and some maximum lies within `1e-1`, the ray is resolved as IAS
with boundary the midpoint of the two samples and neighbour id the first
matching index (into the other-maxima array) plus one; if the trigger came
only from a beta sphere (no maximum within `1e-1`), the id lookup fails
with an `IndexError` instead of resolving.  Otherwise the step size is
divided by 10 and tracing restarts on
`np.arange(l_bnd, u_bnd + ss, ss)` — from the previous sample's distance to
the maximum (`1e-3` at the first sample) to the current sample's distance
extended by one refined step. -/
theorem C1_amended_watershed_step (solver : OdeSolver) (densCutoff bndErr : Q)
    (maxima : V3) (otherMaximas : List V3) (betaMax : Option Q)
    (betaOthers : Option (List Q)) (gpFuel : ℕ) (radPts : List Q)
    (ray : List V3) (rayDensity : List Q) (ssRay : Q) (i : ℕ)
    (rest : List ℕ) (yVal : V3)
    (hdens : Q.blt densCutoff (rayDensity.getD i 0) = true)
    (hgp : gradient_path solver (ray.getD i default)
        (0, Q.qmax (1000 * radPts.getD i 0) 75) "LSODA" 50 200 10
        ((1 : Q) / 1000) betaMax maxima gpFuel = .ok yVal)
    (htrig : watershedTrigger yVal otherMaximas betaOthers = true) :
    (distLt (ray.getD i default) (pyGetV ray ((i : ℤ) - 1)) bndErr = true →
      (∀ j, otherMaximas.findIdx?
          (fun m => normLt (yVal - m) ((1 : Q) / 10)) = some j →
        rayLoopGo solver densCutoff bndErr maxima otherMaximas betaMax
            betaOthers gpFuel radPts ray rayDensity ssRay (i :: rest) =
          .ok (.watershed
            (((1 : Q) / 2) • (ray.getD i default + pyGetV ray ((i : ℤ) - 1)))
            (j + 1)))
      ∧ (otherMaximas.findIdx?
          (fun m => normLt (yVal - m) ((1 : Q) / 10)) = none →
        rayLoopGo solver densCutoff bndErr maxima otherMaximas betaMax
            betaOthers gpFuel radPts ray rayDensity ssRay (i :: rest) =
          .error .indexError))
    ∧ (distLt (ray.getD i default) (pyGetV ray ((i : ℤ) - 1)) bndErr = false →
      rayLoopGo solver densCutoff bndErr maxima otherMaximas betaMax
          betaOthers gpFuel radPts ray rayDensity ssRay (i :: rest) =
        .ok (.refineGrid
          (arangeQ
            (if i ≠ 0 then norm3 (pyGetV ray ((i : ℤ) - 1) - maxima)
             else (1 : Q) / 1000)
            (norm3 (ray.getD i default - maxima) + ssRay / 10) (ssRay / 10))
          (ssRay / 10))) := by
  constructor
  · intro hdist
    constructor
    · intro j hfind
      unfold rayLoopGo
      simp only [hdens, if_true, hgp, htrig, hdist, hfind]
    · intro hfind
      unfold rayLoopGo
      simp only [hdens, if_true, hgp, htrig, hdist, hfind]
  · intro hdist
    unfold rayLoopGo
    simp only [hdens, if_true, hgp, htrig, hdist, Bool.false_eq_true, if_false]

/-- Witness for C1 (amended): the watershed resolution of `exRun`'s basin
`0`, ray `0`: the endpoint `exM1` is within `1e-1` of the other maximum,
the two bracketing samples are `5e-5` apart, and the ray resolves to the
midpoint with neighbour id `0 + 1`. -/
theorem C1_amended_watershed_step_witness :
    rayLoopGo exSolver ((1 : Q) / 100000) ((1 : Q) / 10000) exM0 [exM1] none
        none 4 exRadial (exRadial.map (fun r => exM0 + r • exDir0))
        ((exRadial.map (fun r => exM0 + r • exDir0)).map exDensity)
        (meanDiff exRadial) [0, 1] =
      .ok (.watershed
        (((1 : Q) / 2) •
          ((exRadial.map (fun r => exM0 + r • exDir0)).getD 0 default +
            pyGetV (exRadial.map (fun r => exM0 + r • exDir0))
              (((0 : ℕ) : ℤ) - 1))) (0 + 1)) :=
  ((C1_amended_watershed_step exSolver ((1 : Q) / 100000) ((1 : Q) / 10000)
      exM0 [exM1] none none 4 exRadial
      (exRadial.map (fun r => exM0 + r • exDir0))
      ((exRadial.map (fun r => exM0 + r • exDir0)).map exDensity)
      (meanDiff exRadial) 0 [1] exM1 (by decide) (by decide) (by decide)).1
    (by decide)).1 0 (by decide)

/-! ### Claims C4 and C10: classification bookkeeping -/

theorem exceptMapM_ok_length {α β : Type} {f : α → Except QtaimErr β} :
    ∀ {l : List α} {bs : List β}, exceptMapM f l = .ok bs →
      bs.length = l.length := by
  intro l
  induction l with
  | nil =>
    intro bs h
    unfold exceptMapM at h
    cases h
    rfl
  | cons a as ih =>
    intro bs h
    unfold exceptMapM at h
    cases hfa : f a with
    | error e => rw [hfa] at h; cases h
    | ok b =>
      rw [hfa] at h
      cases hrest : exceptMapM f as with
      | error e => rw [hrest] at h; cases h
      | ok bs' =>
        rw [hrest] at h
        cases h
        simp [ih hrest]

theorem exceptMapM_ok_getD {α β : Type} {f : α → Except QtaimErr β}
    (dA : α) (dB : β) :
    ∀ {l : List α} {bs : List β}, exceptMapM f l = .ok bs →
      ∀ k, k < l.length → f (l.getD k dA) = .ok (bs.getD k dB) := by
  intro l
  induction l with
  | nil =>
    intro bs _ k hk
    simp at hk
  | cons a as ih =>
    intro bs h k hk
    unfold exceptMapM at h
    cases hfa : f a with
    | error e => rw [hfa] at h; cases h
    | ok b =>
      rw [hfa] at h
      cases hrest : exceptMapM f as with
      | error e => rw [hrest] at h; cases h
      | ok bs' =>
        rw [hrest] at h
        cases h
        cases k with
        | zero => simpa using hfa
        | succ k' =>
          simp only [List.getD_cons_succ]
          exact ih hrest k' (by simpa using hk)

/-- Membership in the per-basin `oas` list: exactly the indices of OAS
tags. -/
theorem mem_oasOfTags (tags : List (Q × SurfClass)) (k : ℕ) :
    k ∈ oasOfTags tags ↔
      k < tags.length ∧ (tags.getD k (0, .oasC)).2.isOas = true := by
  unfold oasOfTags
  rw [List.mem_filter, List.mem_range]

/-- Membership in the per-basin `ias` list: exactly the indices of IAS
tags. -/
theorem mem_iasOfTags (tags : List (Q × SurfClass)) (k : ℕ) :
    k ∈ iasOfTags tags ↔
      k < tags.length ∧ (tags.getD k (0, .oasC)).2.isOas = false := by
  unfold iasOfTags
  rw [List.mem_filter, List.mem_range]
  simp

/-- Every tag index is in exactly one of the two index lists. -/
theorem oas_ias_partition (tags : List (Q × SurfClass)) (k : ℕ) :
    ((k ∈ oasOfTags tags ∨ k ∈ iasOfTags tags) ↔ k < tags.length)
    ∧ ¬(k ∈ oasOfTags tags ∧ k ∈ iasOfTags tags) := by
  rw [mem_oasOfTags, mem_iasOfTags]
  constructor
  · constructor
    · rintro (⟨h, _⟩ | ⟨h, _⟩) <;> exact h
    · intro h
      cases hc : (tags.getD k (0, .oasC)).2.isOas
      · exact Or.inr ⟨h, rfl⟩
      · exact Or.inl ⟨h, rfl⟩
  · rintro ⟨⟨_, h1⟩, ⟨_, h2⟩⟩
    rw [h1] at h2
    cases h2

theorem rvalsOfTags_length (tags : List (Q × SurfClass)) :
    (rvalsOfTags tags).length = tags.length := by
  unfold rvalsOfTags
  simp

/-- Elements of the per-basin index lists are below the tag count. -/
theorem oasOfTags_lt (tags : List (Q × SurfClass)) {k : ℕ}
    (h : k ∈ oasOfTags tags) : k < tags.length :=
  ((mem_oasOfTags tags k).mp h).1

theorem iasOfTags_lt (tags : List (Q × SurfClass)) {k : ℕ}
    (h : k ∈ iasOfTags tags) : k < tags.length :=
  ((mem_iasOfTags tags k).mp h).1

theorem getD_map_of_lt {α β : Type} (f : α → β) (l : List α) (n : ℕ)
    (dβ : β) (h : n < l.length) (dα : α) :
    (l.map f).getD n dβ = f (l.getD n dα) := by
  rw [List.getD_eq_getElem _ _ (by simpa using h), List.getD_eq_getElem _ _ h,
    List.getElem_map]

theorem getD_range_of_lt {n k : ℕ} (h : k < n) : (List.range n).getD k 0 = k := by
  rw [List.getD_eq_getElem _ _ (by simpa using h)]
  simp

/-- The per-basin partition invariant of a surface model: for every basin,
`oas` and `ias` are disjoint and together cover exactly the angular indices
classified for that basin (all indices below the basin's `r_func` length
when the basin was in `maxima_to_do`, none otherwise). -/
def PartitionProp (s : SurfaceQTAIM) (refine : RefineArg) : Prop :=
  ∀ b : ℕ,
    List.Disjoint (s.oas.getD b []) (s.ias.getD b [])
    ∧ ∀ k : ℕ,
      ((k ∈ s.oas.getD b [] ∨ k ∈ s.ias.getD b []) ↔
        (b ∈ maximaToDo refine s.maximas.length ∧
          k < (s.rFunc.getD b []).length))

/-- Inversion of one basin step: a successful step produced either the
initialised default (basin not in `maxima_to_do`), the base classification
of the traced tags, or the base classification merged with an
offset-shifted refined surface. -/
theorem qtaimBasinStep_ok_cases (solver : OdeSolver) (densityFunc : V3 → Q)
    (rootScalar : RootScalar)
    (newPtsFn : List ℕ → List ℕ → List V3 → List Q → V3 → List V3)
    (fuel gpFuel : ℕ)
    (recurse : List Q → List V3 → List V3 → Q → Q → Q → Q →
      Option (List Q) → Bool → RefineArg → Except QtaimErr SurfaceQTAIM)
    (rgridPts : List Q) (angularPts : List V3)
    (isoVal densCutoff bndErr isoErr : Q) (betaSphere : Option (List Q))
    (refine : RefineArg) (maximas : List V3) (iMaxima : ℕ) (d : BasinData)
    (h : qtaimBasinStep solver densityFunc rootScalar newPtsFn fuel gpFuel
      recurse rgridPts angularPts isoVal densCutoff bndErr isoErr betaSphere
      refine maximas iMaxima = .ok d) :
    (iMaxima ∉ maximaToDo refine maximas.length ∧
      d = ⟨List.replicate angularPts.length 0, [], [], [], none⟩)
    ∨ (iMaxima ∈ maximaToDo refine maximas.length ∧
      ∃ tags : List (Q × SurfClass), tags.length = angularPts.length ∧
        ((refine ≠ .rbool true ∧
          d = ⟨rvalsOfTags tags, oasOfTags tags, iasOfTags tags,
            biasOfTags tags, none⟩)
        ∨ (refine = .rbool true ∧
          ∃ (newPts : List V3) (refined : SurfaceQTAIM),
            recurse rgridPts newPts maximas isoVal densCutoff bndErr isoErr
              betaSphere false (.rint iMaxima) = .ok refined ∧
            d = ⟨rvalsOfTags tags ++ refined.rFunc.getD iMaxima [],
              oasOfTags tags ++
                (refined.oas.getD iMaxima []).map (· + angularPts.length),
              iasOfTags tags ++
                (refined.ias.getD iMaxima []).map (· + angularPts.length),
              biasOfTags tags ++ refined.basinsIas.getD iMaxima [],
              some newPts⟩))) := by
  unfold qtaimBasinStep at h
  by_cases hmem : iMaxima ∈ maximaToDo refine maximas.length
  · right
    refine ⟨hmem, ?_⟩
    rw [if_pos hmem] at h
    dsimp only at h
    split at h
    · exact Except.noConfusion h
    · next tags htags =>
      refine ⟨tags, exceptMapM_ok_length htags, ?_⟩
      split at h
      · next href =>
        right
        refine ⟨href, ?_⟩
        split at h
        · exact Except.noConfusion h
        · next refined hrec =>
          injection h with h
          exact ⟨_, refined, hrec, h.symm⟩
      · next href =>
        left
        injection h with h
        exact ⟨href, h.symm⟩
  · left
    rw [if_neg hmem] at h
    injection h with h
    exact ⟨hmem, h.symm⟩

/-- Partition property of a single basin step's data: `oas` and `ias` are
disjoint and together cover exactly the indices below the basin's `r_func`
length (and nothing for a basin outside `maxima_to_do`). -/
theorem qtaimBasinStep_partition (solver : OdeSolver) (densityFunc : V3 → Q)
    (rootScalar : RootScalar)
    (newPtsFn : List ℕ → List ℕ → List V3 → List Q → V3 → List V3)
    (fuel gpFuel : ℕ)
    (recurse : List Q → List V3 → List V3 → Q → Q → Q → Q →
      Option (List Q) → Bool → RefineArg → Except QtaimErr SurfaceQTAIM)
    (rgridPts : List Q) (angularPts : List V3)
    (isoVal densCutoff bndErr isoErr : Q) (betaSphere : Option (List Q))
    (refine : RefineArg) (maximas : List V3) (iMaxima : ℕ) (d : BasinData)
    (hrec : ∀ (rg : List Q) (np ms : List V3) (iv dc be ie : Q)
      (bsph : Option (List Q)) (oc : Bool) (i : ℕ) (s' : SurfaceQTAIM),
      recurse rg np ms iv dc be ie bsph oc (.rint i) = .ok s' →
        PartitionProp s' (.rint i))
    (h : qtaimBasinStep solver densityFunc rootScalar newPtsFn fuel gpFuel
      recurse rgridPts angularPts isoVal densCutoff bndErr isoErr betaSphere
      refine maximas iMaxima = .ok d) :
    List.Disjoint d.oas d.ias
    ∧ ∀ k : ℕ, ((k ∈ d.oas ∨ k ∈ d.ias) ↔
        (iMaxima ∈ maximaToDo refine maximas.length ∧ k < d.rvals.length)) := by
  rcases qtaimBasinStep_ok_cases solver densityFunc rootScalar newPtsFn fuel
    gpFuel recurse rgridPts angularPts isoVal densCutoff bndErr isoErr
    betaSphere refine maximas iMaxima d h with
    ⟨hmem, hd⟩ | ⟨hmem, tags, htl, ⟨_, hd⟩ | ⟨_, newPts, refined, hrc, hd⟩⟩
  · subst hd
    constructor
    · intro a ha
      simp at ha
    · intro k
      simp [hmem]
  · subst hd
    constructor
    · intro a h1 h2
      exact (oas_ias_partition tags a).2 ⟨h1, h2⟩
    · intro k
      dsimp only
      rw [(oas_ias_partition tags k).1, rvalsOfTags_length]
      simp [hmem]
  · subst hd
    have href := hrec _ _ _ _ _ _ _ _ _ _ _ hrc
    have hrefD := (href iMaxima).1
    have hrefU' : ∀ k : ℕ,
        ((k ∈ refined.oas.getD iMaxima [] ∨ k ∈ refined.ias.getD iMaxima []) ↔
          k < (refined.rFunc.getD iMaxima []).length) := by
      intro k
      rw [(href iMaxima).2 k]
      simp [maximaToDo]
    constructor
    · intro a h1 h2
      dsimp only at h1 h2
      rcases List.mem_append.mp h1 with hb1 | hm1
      · rcases List.mem_append.mp h2 with hb2 | hm2
        · exact (oas_ias_partition tags a).2 ⟨hb1, hb2⟩
        · rcases List.mem_map.mp hm2 with ⟨x, _, hx⟩
          have := oasOfTags_lt tags hb1
          omega
      · rcases List.mem_append.mp h2 with hb2 | hm2
        · rcases List.mem_map.mp hm1 with ⟨x, _, hx⟩
          have := iasOfTags_lt tags hb2
          omega
        · rcases List.mem_map.mp hm1 with ⟨x, hx1, hx⟩
          rcases List.mem_map.mp hm2 with ⟨y, hy1, hy⟩
          have hxy : x = y := by omega
          subst hxy
          exact hrefD hx1 hy1
    · intro k
      dsimp only
      constructor
      · intro hk
        refine ⟨hmem, ?_⟩
        rw [List.length_append, rvalsOfTags_length]
        rcases hk with h1 | h1
        · rcases List.mem_append.mp h1 with hb | hm
          · have := oasOfTags_lt tags hb
            omega
          · rcases List.mem_map.mp hm with ⟨x, hx1, hx⟩
            have := (hrefU' x).mp (Or.inl hx1)
            omega
        · rcases List.mem_append.mp h1 with hb | hm
          · have := iasOfTags_lt tags hb
            omega
          · rcases List.mem_map.mp hm with ⟨x, hx1, hx⟩
            have := (hrefU' x).mp (Or.inr hx1)
            omega
      · rintro ⟨-, hk⟩
        rw [List.length_append, rvalsOfTags_length] at hk
        by_cases hkn : k < tags.length
        · rcases (oas_ias_partition tags k).1.mpr hkn with ho | hi
          · exact Or.inl (List.mem_append.mpr (Or.inl ho))
          · exact Or.inr (List.mem_append.mpr (Or.inl hi))
        · have hx : k - angularPts.length <
              (refined.rFunc.getD iMaxima []).length := by omega
          rcases (hrefU' _).mpr hx with ho | hi
          · exact Or.inl (List.mem_append.mpr (Or.inr
              (List.mem_map.mpr ⟨_, ho, by omega⟩)))
          · exact Or.inr (List.mem_append.mpr (Or.inr
              (List.mem_map.mpr ⟨_, hi, by omega⟩)))

/-- Inversion of a successful `qtaimBody` run: the surface is assembled
from the per-basin data list produced by `qtaimBasinStep` over all basin
indices. -/
theorem qtaimBody_ok_inv (solver : OdeSolver) (densityFunc : V3 → Q)
    (rootScalar : RootScalar)
    (newPtsFn : List ℕ → List ℕ → List V3 → List Q → V3 → List V3)
    (fuel gpFuel : ℕ)
    (recurse : List Q → List V3 → List V3 → Q → Q → Q → Q →
      Option (List Q) → Bool → RefineArg → Except QtaimErr SurfaceQTAIM)
    (rgridPts : List Q) (angularPts : List V3) (centers : List V3)
    (isoVal densCutoff bndErr isoErr : Q) (betaSphere : Option (List Q))
    (optimizeCenters : Bool) (refine : RefineArg) (s : SurfaceQTAIM)
    (h : qtaimBody solver densityFunc rootScalar newPtsFn fuel gpFuel recurse
      rgridPts angularPts centers isoVal densCutoff bndErr isoErr betaSphere
      optimizeCenters refine = .ok s) :
    ∃ (maximas : List V3) (datas : List BasinData),
      exceptMapM (qtaimBasinStep solver densityFunc rootScalar newPtsFn fuel
          gpFuel recurse rgridPts angularPts isoVal densCutoff bndErr isoErr
          betaSphere refine maximas) (List.range maximas.length) = .ok datas
      ∧ s.rFunc = datas.map (·.rvals)
      ∧ s.oas = datas.map (·.oas)
      ∧ s.ias = datas.map (·.ias)
      ∧ s.basinsIas = datas.map (·.basinIas)
      ∧ s.maximas = maximas
      ∧ datas.length = maximas.length := by
  unfold qtaimBody at h
  split at h
  · exact Except.noConfusion h
  · split at h
    · exact Except.noConfusion h
    · split at h
      · exact Except.noConfusion h
      · split at h
        · exact Except.noConfusion h
        · next maximas hopt =>
          split at h
          · exact Except.noConfusion h
          · next datas hdatas =>
            injection h with h
            subst h
            exact ⟨maximas, datas, hdatas, rfl, rfl, rfl, rfl, rfl,
              (exceptMapM_ok_length hdatas).trans (List.length_range _)⟩

/-- The partition invariant for a successful `qtaimBody` run, given that
every successful recursive (refinement) call produces a surface satisfying
it. -/
theorem qtaimBody_partition (solver : OdeSolver) (densityFunc : V3 → Q)
    (rootScalar : RootScalar)
    (newPtsFn : List ℕ → List ℕ → List V3 → List Q → V3 → List V3)
    (fuel gpFuel : ℕ)
    (recurse : List Q → List V3 → List V3 → Q → Q → Q → Q →
      Option (List Q) → Bool → RefineArg → Except QtaimErr SurfaceQTAIM)
    (rgridPts : List Q) (angularPts : List V3) (centers : List V3)
    (isoVal densCutoff bndErr isoErr : Q) (betaSphere : Option (List Q))
    (optimizeCenters : Bool) (refine : RefineArg) (s : SurfaceQTAIM)
    (hrec : ∀ (rg : List Q) (np ms : List V3) (iv dc be ie : Q)
      (bsph : Option (List Q)) (oc : Bool) (i : ℕ) (s' : SurfaceQTAIM),
      recurse rg np ms iv dc be ie bsph oc (.rint i) = .ok s' →
        PartitionProp s' (.rint i))
    (h : qtaimBody solver densityFunc rootScalar newPtsFn fuel gpFuel recurse
      rgridPts angularPts centers isoVal densCutoff bndErr isoErr betaSphere
      optimizeCenters refine = .ok s) :
    PartitionProp s refine := by
  obtain ⟨maximas, datas, hdatas, hrf, hoas, hias, _, hmax, hlen⟩ :=
    qtaimBody_ok_inv solver densityFunc rootScalar newPtsFn fuel gpFuel recurse
      rgridPts angularPts centers isoVal densCutoff bndErr isoErr betaSphere
      optimizeCenters refine s h
  intro b
  by_cases hb : b < maximas.length
  · have hstep := exceptMapM_ok_getD 0 (⟨[], [], [], [], none⟩ : BasinData)
      hdatas b (by simpa using hb)
    rw [getD_range_of_lt hb] at hstep
    have hpart := qtaimBasinStep_partition solver densityFunc rootScalar
      newPtsFn fuel gpFuel recurse rgridPts angularPts isoVal densCutoff
      bndErr isoErr betaSphere refine maximas b _ hrec hstep
    have hb' : b < datas.length := by omega
    have e1 : s.oas.getD b [] = (datas.getD b ⟨[], [], [], [], none⟩).oas := by
      rw [hoas]
      exact getD_map_of_lt _ datas b [] hb' _
    have e2 : s.ias.getD b [] = (datas.getD b ⟨[], [], [], [], none⟩).ias := by
      rw [hias]
      exact getD_map_of_lt _ datas b [] hb' _
    have e3 : s.rFunc.getD b [] = (datas.getD b ⟨[], [], [], [], none⟩).rvals := by
      rw [hrf]
      exact getD_map_of_lt _ datas b [] hb' _
    rw [e1, e2, e3, hmax]
    exact hpart
  · have e1 : s.oas.getD b [] = [] := by
      rw [hoas]
      apply List.getD_eq_default
      simp only [List.length_map]
      omega
    have e2 : s.ias.getD b [] = [] := by
      rw [hias]
      apply List.getD_eq_default
      simp only [List.length_map]
      omega
    have e3 : s.rFunc.getD b [] = [] := by
      rw [hrf]
      apply List.getD_eq_default
      simp only [List.length_map]
      omega
    rw [e1, e2, e3]
    constructor
    · intro a ha
      simp at ha
    · intro k
      simp

/-- The partition invariant for every successful `qtaimGo` run (any
refinement recursion depth). -/
theorem qtaimGo_partition (solver : OdeSolver) (densityFunc : V3 → Q)
    (rootScalar : RootScalar)
    (newPtsFn : List ℕ → List ℕ → List V3 → List Q → V3 → List V3)
    (fuel gpFuel : ℕ) :
    ∀ (depth : ℕ) (rgridPts : List Q) (angularPts : List V3)
      (centers : List V3) (isoVal densCutoff bndErr isoErr : Q)
      (betaSphere : Option (List Q)) (optimizeCenters : Bool)
      (refine : RefineArg) (s : SurfaceQTAIM),
      qtaimGo solver densityFunc rootScalar newPtsFn fuel gpFuel depth rgridPts
          angularPts centers isoVal densCutoff bndErr isoErr betaSphere
          optimizeCenters refine = .ok s →
        PartitionProp s refine := by
  intro depth
  induction depth with
  | zero =>
    intro rgridPts angularPts centers isoVal densCutoff bndErr isoErr
      betaSphere optimizeCenters refine s h
    exact qtaimBody_partition _ _ _ _ _ _ _ _ _ _ _ _ _ _ _ _ _ s
      (fun _ _ _ _ _ _ _ _ _ _ _ hr => Except.noConfusion hr) h
  | succ depth ih =>
    intro rgridPts angularPts centers isoVal densCutoff bndErr isoErr
      betaSphere optimizeCenters refine s h
    exact qtaimBody_partition _ _ _ _ _ _ _ _ _ _ _ _ _ _ _ _ _ s
      (fun rg np ms iv dc be ie bsph oc i s' hr =>
        ih rg np ms iv dc be ie bsph oc (.rint i) s' hr) h

/-- C4: in every surface model the construction returns, each basin's OAS
and IAS index lists are disjoint, and their union is exactly the set of
angular indices classified for that basin: all indices below that basin's
`r_func` length when the basin was traced (`maxima_to_do`), and none
otherwise — every traced direction is recorded in exactly one of the two
lists. -/
theorem C4_oas_ias_partition (solver : OdeSolver) (densityFunc : V3 → Q)
    (rootScalar : RootScalar)
    (newPtsFn : List ℕ → List ℕ → List V3 → List Q → V3 → List V3)
    (fuel gpFuel : ℕ) (rgridPts : List Q) (angularPts : List V3)
    (centers : List V3) (isoVal densCutoff bndErr isoErr : Q)
    (betaSphere : Option (List Q)) (optimizeCenters : Bool)
    (refine : RefineArg)
    (hok : isOkE (qtaim_surface solver densityFunc rootScalar newPtsFn fuel
      gpFuel rgridPts angularPts centers isoVal densCutoff bndErr isoErr
      betaSphere optimizeCenters refine) = true) :
    ∀ b : ℕ,
      List.Disjoint
        (getOas (qtaim_surface solver densityFunc rootScalar newPtsFn fuel
          gpFuel rgridPts angularPts centers isoVal densCutoff bndErr isoErr
          betaSphere optimizeCenters refine) b)
        (getIas (qtaim_surface solver densityFunc rootScalar newPtsFn fuel
          gpFuel rgridPts angularPts centers isoVal densCutoff bndErr isoErr
          betaSphere optimizeCenters refine) b)
      ∧ ∀ k : ℕ,
        ((k ∈ getOas (qtaim_surface solver densityFunc rootScalar newPtsFn
            fuel gpFuel rgridPts angularPts centers isoVal densCutoff bndErr
            isoErr betaSphere optimizeCenters refine) b
          ∨ k ∈ getIas (qtaim_surface solver densityFunc rootScalar newPtsFn
            fuel gpFuel rgridPts angularPts centers isoVal densCutoff bndErr
            isoErr betaSphere optimizeCenters refine) b) ↔
          (b ∈ maximaToDo refine
            (getNumMaximas (qtaim_surface solver densityFunc rootScalar
              newPtsFn fuel gpFuel rgridPts angularPts centers isoVal
              densCutoff bndErr isoErr betaSphere optimizeCenters refine))
          ∧ k < (getRFunc (qtaim_surface solver densityFunc rootScalar
              newPtsFn fuel gpFuel rgridPts angularPts centers isoVal
              densCutoff bndErr isoErr betaSphere optimizeCenters refine)
              b).length)) := by
  cases hr : qtaim_surface solver densityFunc rootScalar newPtsFn fuel gpFuel
      rgridPts angularPts centers isoVal densCutoff bndErr isoErr betaSphere
      optimizeCenters refine with
  | error e =>
    rw [hr] at hok
    exact absurd hok (by simp [isOkE])
  | ok s =>
    have hp := qtaimGo_partition solver densityFunc rootScalar newPtsFn fuel
      gpFuel 1 rgridPts angularPts centers isoVal densCutoff bndErr isoErr
      betaSphere optimizeCenters refine s hr
    intro b
    simp only [hr, getOas, getIas, getRFunc, getNumMaximas]
    exact hp b

/-- Witness for C4: basin `0` of the two-maxima run, checked at angular
index `1`. -/
theorem C4_oas_ias_partition_witness :
    List.Disjoint (getOas (exRun (.rbool false)) 0)
      (getIas (exRun (.rbool false)) 0)
    ∧ ((1 ∈ getOas (exRun (.rbool false)) 0
        ∨ 1 ∈ getIas (exRun (.rbool false)) 0) ↔
      (0 ∈ maximaToDo (.rbool false) (getNumMaximas (exRun (.rbool false)))
        ∧ 1 < (getRFunc (exRun (.rbool false)) 0).length)) :=
  have h := C4_oas_ias_partition exSolver exDensity exRootScalar exNewPtsFn 6 4
    exRadial exAngular exCenters ((1 : Q) / 1000) ((1 : Q) / 100000)
    ((1 : Q) / 10000) ((1 : Q) / 1000000) none false (.rbool false) (by decide)
  ⟨(h 0).1, (h 0).2 1⟩

/-- C10: with `refine` an integer `i`, only basin `i` is traced.  Every
other basin `j` of the returned surface keeps its initialised state —
`r_func[j]` is identically `0` (one zero per angular point) and its OAS,
IAS and neighbour-id lists are empty — while every angular index of basin
`i` is classified into OAS or IAS. -/
theorem C10_refine_int_scope (solver : OdeSolver) (densityFunc : V3 → Q)
    (rootScalar : RootScalar)
    (newPtsFn : List ℕ → List ℕ → List V3 → List Q → V3 → List V3)
    (fuel gpFuel : ℕ) (rgridPts : List Q) (angularPts : List V3)
    (centers : List V3) (isoVal densCutoff bndErr isoErr : Q)
    (betaSphere : Option (List Q)) (optimizeCenters : Bool) (i : ℕ)
    (hok : isOkE (qtaim_surface solver densityFunc rootScalar newPtsFn fuel
      gpFuel rgridPts angularPts centers isoVal densCutoff bndErr isoErr
      betaSphere optimizeCenters (.rint i)) = true)
    (hi : i < getNumMaximas (qtaim_surface solver densityFunc rootScalar
      newPtsFn fuel gpFuel rgridPts angularPts centers isoVal densCutoff
      bndErr isoErr betaSphere optimizeCenters (.rint i))) :
    (∀ j : ℕ,
      j < getNumMaximas (qtaim_surface solver densityFunc rootScalar newPtsFn
        fuel gpFuel rgridPts angularPts centers isoVal densCutoff bndErr
        isoErr betaSphere optimizeCenters (.rint i)) →
      j ≠ i →
      getRFunc (qtaim_surface solver densityFunc rootScalar newPtsFn fuel
          gpFuel rgridPts angularPts centers isoVal densCutoff bndErr isoErr
          betaSphere optimizeCenters (.rint i)) j =
        List.replicate angularPts.length 0
      ∧ getOas (qtaim_surface solver densityFunc rootScalar newPtsFn fuel
          gpFuel rgridPts angularPts centers isoVal densCutoff bndErr isoErr
          betaSphere optimizeCenters (.rint i)) j = []
      ∧ getIas (qtaim_surface solver densityFunc rootScalar newPtsFn fuel
          gpFuel rgridPts angularPts centers isoVal densCutoff bndErr isoErr
          betaSphere optimizeCenters (.rint i)) j = []
      ∧ getBasinIas (qtaim_surface solver densityFunc rootScalar newPtsFn fuel
          gpFuel rgridPts angularPts centers isoVal densCutoff bndErr isoErr
          betaSphere optimizeCenters (.rint i)) j = [])
    ∧ (∀ k : ℕ, k < angularPts.length →
      (k ∈ getOas (qtaim_surface solver densityFunc rootScalar newPtsFn fuel
          gpFuel rgridPts angularPts centers isoVal densCutoff bndErr isoErr
          betaSphere optimizeCenters (.rint i)) i
        ∨ k ∈ getIas (qtaim_surface solver densityFunc rootScalar newPtsFn
          fuel gpFuel rgridPts angularPts centers isoVal densCutoff bndErr
          isoErr betaSphere optimizeCenters (.rint i)) i)) := by
  cases hr : qtaim_surface solver densityFunc rootScalar newPtsFn fuel gpFuel
      rgridPts angularPts centers isoVal densCutoff bndErr isoErr betaSphere
      optimizeCenters (.rint i) with
  | error e =>
    rw [hr] at hok
    exact absurd hok (by simp [isOkE])
  | ok s =>
    have hr' : qtaimBody solver densityFunc rootScalar newPtsFn fuel gpFuel
        (qtaimGo solver densityFunc rootScalar newPtsFn fuel gpFuel 0) rgridPts
        angularPts centers isoVal densCutoff bndErr isoErr betaSphere
        optimizeCenters (.rint i) = .ok s := hr
    obtain ⟨maximas, datas, hdatas, hrf, hoas, hias, hbias, hmax, hlen⟩ :=
      qtaimBody_ok_inv solver densityFunc rootScalar newPtsFn fuel gpFuel
        (qtaimGo solver densityFunc rootScalar newPtsFn fuel gpFuel 0) rgridPts
        angularPts centers isoVal densCutoff bndErr isoErr betaSphere
        optimizeCenters (.rint i) s hr'
    have hnum : getNumMaximas (Except.ok s :
        Except QtaimErr SurfaceQTAIM) = maximas.length := by
      simp only [getNumMaximas, hmax]
    rw [hr] at hi
    rw [hnum] at hi
    constructor
    · intro j hj hne
      rw [hnum] at hj
      have hjd : j < datas.length := by omega
      have hstep := exceptMapM_ok_getD 0 (⟨[], [], [], [], none⟩ : BasinData)
        hdatas j (by simpa using hj)
      rw [getD_range_of_lt hj] at hstep
      rcases qtaimBasinStep_ok_cases solver densityFunc rootScalar newPtsFn
        fuel gpFuel _ rgridPts angularPts isoVal densCutoff bndErr isoErr
        betaSphere (.rint i) maximas j _ hstep with ⟨_, hd⟩ | ⟨hmem, _⟩
      · refine ⟨?_, ?_, ?_, ?_⟩
        · simp only [hr, getRFunc]
          rw [hrf, getD_map_of_lt _ datas j [] hjd ⟨[], [], [], [], none⟩, hd]
        · simp only [hr, getOas]
          rw [hoas, getD_map_of_lt _ datas j [] hjd ⟨[], [], [], [], none⟩, hd]
        · simp only [hr, getIas]
          rw [hias, getD_map_of_lt _ datas j [] hjd ⟨[], [], [], [], none⟩, hd]
        · simp only [hr, getBasinIas]
          rw [hbias, getD_map_of_lt _ datas j [] hjd ⟨[], [], [], [], none⟩, hd]
      · exfalso
        simp only [maximaToDo, List.mem_singleton] at hmem
        exact hne hmem
    · intro k hk
      have hid : i < datas.length := by omega
      have hstep := exceptMapM_ok_getD 0 (⟨[], [], [], [], none⟩ : BasinData)
        hdatas i (by simpa using hi)
      rw [getD_range_of_lt hi] at hstep
      rcases qtaimBasinStep_ok_cases solver densityFunc rootScalar newPtsFn
        fuel gpFuel _ rgridPts angularPts isoVal densCutoff bndErr isoErr
        betaSphere (.rint i) maximas i _ hstep with
        ⟨hmem, _⟩ | ⟨_, tags, htl, ⟨_, hd⟩ | ⟨habs, _⟩⟩
      · exfalso
        simp [maximaToDo] at hmem
      · have hko : k < tags.length := by omega
        rcases (oas_ias_partition tags k).1.mpr hko with ho | hi'
        · left
          simp only [hr, getOas]
          rw [hoas, getD_map_of_lt _ datas i [] hid ⟨[], [], [], [], none⟩, hd]
          exact ho
        · right
          simp only [hr, getIas]
          rw [hias, getD_map_of_lt _ datas i [] hid ⟨[], [], [], [], none⟩, hd]
          exact hi'
      · exact RefineArg.noConfusion habs

/-- Witness for C10: the two-maxima run restricted to basin `0` leaves
basin `1` untouched (all-zero radii, empty lists) and classifies both
directions of basin `0`. -/
theorem C10_refine_int_scope_witness :
    (getRFunc (exRun (.rint 0)) 1 = List.replicate exAngular.length 0
      ∧ getOas (exRun (.rint 0)) 1 = [] ∧ getIas (exRun (.rint 0)) 1 = []
      ∧ getBasinIas (exRun (.rint 0)) 1 = [])
    ∧ (1 ∈ getOas (exRun (.rint 0)) 0 ∨ 1 ∈ getIas (exRun (.rint 0)) 0) :=
  have h := C10_refine_int_scope exSolver exDensity exRootScalar exNewPtsFn 6 4
    exRadial exAngular exCenters ((1 : Q) / 1000) ((1 : Q) / 100000)
    ((1 : Q) / 10000) ((1 : Q) / 1000000) none false 0 (by decide) (by decide)
  ⟨h.1 1 (by decide) (by decide), h.2 1 (by decide)⟩
